import Mathlib

/-!
Shallow embedding of the kuduraft consensus core
(src/kudu/consensus/raft_consensus.cc, src/kudu/consensus/leader_election.cc,
with contracts of quorum_util / pending rounds / consensus queue taken from
their headers and the specification where the .cc files are not available).

Machine integers (int64_t terms and indexes) are modelled as Nat / Int;
all values involved are small and non-negative in the modelled paths, so no
overflow wrapping is required.  C++ out-parameters plus Status returns are
modelled as products; in-place mutation is modelled by returning the new
state (error paths that return before mutating return the input state
unchanged, mirroring the source control flow).
-/

namespace KuduRaft

/-- Error kinds of kudu::Status used on the modelled paths. -/
inductive Err where
  | illegalState (msg : String)
  | invalidArgument (msg : String)
  | serviceUnavailable (msg : String)
  | notFound (msg : String)
  | notSupported (msg : String)
  | alreadyPresent (msg : String)
  | aborted (msg : String)
deriving DecidableEq, Repr

/-- ElectionVote from consensus.pb (VOTE_GRANTED / VOTE_DENIED). -/
inductive ElectionVote where
  | granted
  | denied
deriving DecidableEq, Repr

/-- OpId : pair of term and index (opid.pb). -/
structure OpId where
  term : Nat
  index : Nat
deriving DecidableEq, Repr

/-- MinimumOpId() : (0, 0). -/
def minimumOpId : OpId := { term := 0, index := 0 }

/-- OpIdLessThan : lexicographic order on (term, index); opid_util.cc is not
under src/, the order is as documented in the spec data model. -/
def OpIdLessThan (a b : OpId) : Bool :=
  a.term < b.term || (a.term = b.term && a.index < b.index)

/-! ## VoteCounter (leader_election.cc lines 108-194) -/

/-- VoteInfo : the per-voter vote record kept by the counter
(leader_election.h); only the fields used by the modelled paths. -/
structure VoteInfo where
  vote : ElectionVote
  isCandidateRemoved : Bool
deriving DecidableEq, Repr

/-- Classic VoteCounter state (leader_election.cc lines 108-117).
votes_ is an std::map from voter uuid to VoteInfo, modelled as an
association list queried through List.lookup. -/
structure VoteCounter where
  numVoters : Nat
  majoritySize : Nat
  votes : List (String × VoteInfo)
  yesVotes : Nat
  noVotes : Nat
  isCandidateRemoved : Bool
deriving DecidableEq, Repr

/-- VoteCounter constructor (leader_election.cc lines 108-117). -/
def VoteCounter.init (numVoters majoritySize : Nat) : VoteCounter :=
  { numVoters := numVoters, majoritySize := majoritySize, votes := [],
    yesVotes := 0, noVotes := 0, isCandidateRemoved := false }

/-- VoteCounter::RegisterVote (leader_election.cc lines 119-165).
Returns (counter, is_duplicate, status).  The C++ error paths return before
mutating the counter and leave the is_duplicate out-parameter unset; the
model returns the unchanged counter and false there. -/
def VoteCounter.registerVote (c : VoteCounter) (voterUuid : String)
    (voteInfo : VoteInfo) : VoteCounter × Bool × Option Err :=
  match c.votes.lookup voterUuid with
  | some priorVoteInfo =>
    if priorVoteInfo.vote ≠ voteInfo.vote then
      (c, false, some (.invalidArgument "voted a different way twice in the same election"))
    else
      (c, true, none)
  | none =>
    if c.yesVotes + c.noVotes = c.numVoters then
      (c, false, some (.invalidArgument "vote would exceed the expected number of voters"))
    else
      match voteInfo.vote with
      | .granted =>
        ({ c with
            votes := (voterUuid, voteInfo) :: c.votes
            yesVotes := c.yesVotes + 1 },
         false, none)
      | .denied =>
        ({ c with
            votes := (voterUuid, voteInfo) :: c.votes
            isCandidateRemoved := c.isCandidateRemoved || voteInfo.isCandidateRemoved
            noVotes := c.noVotes + 1 },
         false, none)

/-- VoteCounter::IsDecided (leader_election.cc lines 167-170). -/
def VoteCounter.isDecided (c : VoteCounter) : Bool :=
  c.majoritySize ≤ c.yesVotes || c.numVoters - c.majoritySize < c.noVotes

/-- VoteCounter::GetDecision (leader_election.cc lines 172-182). -/
def VoteCounter.getDecision (c : VoteCounter) : Except Err ElectionVote :=
  if c.majoritySize ≤ c.yesVotes then .ok .granted
  else if c.numVoters - c.majoritySize < c.noVotes then .ok .denied
  else .error (.illegalState "Vote not yet decided")

/-- Registering a sequence of votes, dropping rejected registrations
(callers log and ignore RegisterVote errors, leader_election.cc 1433-1437). -/
def registerSeq (c : VoteCounter) : List (String × VoteInfo) → VoteCounter
  | [] => c
  | (u, v) :: rest => registerSeq (c.registerVote u v).1 rest

/-- The tally never exceeds the number of voters. -/
def VoteCounter.TallyBounded (c : VoteCounter) : Prop :=
  c.yesVotes + c.noVotes ≤ c.numVoters

theorem registerVote_preserves_numVoters (c : VoteCounter) (u : String) (v : VoteInfo) :
    (c.registerVote u v).1.numVoters = c.numVoters := by
  unfold VoteCounter.registerVote
  split
  · split <;> rfl
  · split
    · rfl
    · split <;> rfl

theorem registerVote_preserves_majoritySize (c : VoteCounter) (u : String) (v : VoteInfo) :
    (c.registerVote u v).1.majoritySize = c.majoritySize := by
  unfold VoteCounter.registerVote
  split
  · split <;> rfl
  · split
    · rfl
    · split <;> rfl

theorem registerVote_tallyBounded (c : VoteCounter) (u : String) (v : VoteInfo)
    (h : c.TallyBounded) : (c.registerVote u v).1.TallyBounded := by
  unfold VoteCounter.registerVote
  unfold VoteCounter.TallyBounded at h ⊢
  split
  · split <;> exact h
  · split
    · exact h
    · split <;> simp <;> omega

theorem registerSeq_tallyBounded (votes : List (String × VoteInfo)) (c : VoteCounter)
    (h : c.TallyBounded) : (registerSeq c votes).TallyBounded := by
  induction votes generalizing c with
  | nil => exact h
  | cons hd tl ih =>
    exact ih _ (registerVote_tallyBounded c hd.1 hd.2 h)

theorem registerSeq_preserves_numVoters (votes : List (String × VoteInfo)) (c : VoteCounter) :
    (registerSeq c votes).numVoters = c.numVoters := by
  induction votes generalizing c with
  | nil => rfl
  | cons hd tl ih =>
    rw [registerSeq, ih, registerVote_preserves_numVoters]

theorem registerSeq_preserves_majoritySize (votes : List (String × VoteInfo)) (c : VoteCounter) :
    (registerSeq c votes).majoritySize = c.majoritySize := by
  induction votes generalizing c with
  | nil => rfl
  | cons hd tl ih =>
    rw [registerSeq, ih, registerVote_preserves_majoritySize]

/-- Decision rule of a counter whose tally is in bounds, stated on its own
fields. -/
theorem voteCounter_decision_rule_aux (c : VoteCounter)
    (hm : c.majoritySize ≤ c.numVoters) (hb : c.TallyBounded) :
    (c.getDecision = .ok .granted ↔ c.majoritySize ≤ c.yesVotes) ∧
    (c.getDecision = .ok .denied ↔ c.numVoters - c.majoritySize < c.noVotes) ∧
    (c.isDecided = true ↔
      (c.majoritySize ≤ c.yesVotes ∨ c.numVoters - c.majoritySize < c.noVotes)) ∧
    (c.isDecided = false → c.getDecision = .error (.illegalState "Vote not yet decided")) := by
  unfold VoteCounter.TallyBounded at hb
  unfold VoteCounter.getDecision VoteCounter.isDecided
  refine ⟨?_, ?_, ?_, ?_⟩
  · constructor
    · intro h
      by_contra hc
      simp only [if_neg hc] at h
      split at h <;> simp_all
    · intro h
      simp [h]
  · constructor
    · intro h
      split at h
      · simp_all
      · split at h
        · assumption
        · simp_all
    · intro h
      have hyes : ¬ c.majoritySize ≤ c.yesVotes := by omega
      simp [hyes, h]
  · simp
  · intro h
    simp only [Bool.or_eq_false_iff, decide_eq_false_iff_not] at h
    simp [h.1, h.2]

/-- C5: Classic VoteCounter decision rule: after registering any sequence of
votes with N voters and majority size M (M ≤ N), the counter is decided
GRANTED exactly when yes votes reach M, decided DENIED exactly when no votes
exceed N - M, and GetDecision returns an IllegalState error otherwise. -/
theorem c5_voteCounter_decision_rule (numVoters majoritySize : Nat)
    (votes : List (String × VoteInfo)) (hm : majoritySize ≤ numVoters) :
    ((registerSeq (VoteCounter.init numVoters majoritySize) votes).getDecision = .ok .granted ↔
      majoritySize ≤ (registerSeq (VoteCounter.init numVoters majoritySize) votes).yesVotes) ∧
    ((registerSeq (VoteCounter.init numVoters majoritySize) votes).getDecision = .ok .denied ↔
      numVoters - majoritySize <
        (registerSeq (VoteCounter.init numVoters majoritySize) votes).noVotes) ∧
    ((registerSeq (VoteCounter.init numVoters majoritySize) votes).isDecided = true ↔
      (majoritySize ≤ (registerSeq (VoteCounter.init numVoters majoritySize) votes).yesVotes ∨
       numVoters - majoritySize <
        (registerSeq (VoteCounter.init numVoters majoritySize) votes).noVotes)) ∧
    ((registerSeq (VoteCounter.init numVoters majoritySize) votes).isDecided = false →
      (registerSeq (VoteCounter.init numVoters majoritySize) votes).getDecision =
        .error (.illegalState "Vote not yet decided")) := by
  have hN : (registerSeq (VoteCounter.init numVoters majoritySize) votes).numVoters = numVoters :=
    registerSeq_preserves_numVoters votes _
  have hM : (registerSeq (VoteCounter.init numVoters majoritySize) votes).majoritySize =
      majoritySize :=
    registerSeq_preserves_majoritySize votes _
  have hb : (registerSeq (VoteCounter.init numVoters majoritySize) votes).TallyBounded :=
    registerSeq_tallyBounded votes _ (by simp [VoteCounter.init, VoteCounter.TallyBounded])
  have := voteCounter_decision_rule_aux (registerSeq (VoteCounter.init numVoters majoritySize) votes)
    (by rw [hN, hM]; exact hm) hb
  rw [hN, hM] at this
  exact this

/-- Closed witness for c5_voteCounter_decision_rule at a concrete input. -/
theorem c5_voteCounter_decision_rule_witness :
    (2 : Nat) ≤ 3 ∧
    ((registerSeq (VoteCounter.init 3 2)
        [("a", ⟨.granted, false⟩), ("b", ⟨.granted, false⟩)]).getDecision = .ok .granted ↔
      2 ≤ (registerSeq (VoteCounter.init 3 2)
        [("a", ⟨.granted, false⟩), ("b", ⟨.granted, false⟩)]).yesVotes) :=
  ⟨by decide, (c5_voteCounter_decision_rule 3 2
      [("a", ⟨.granted, false⟩), ("b", ⟨.granted, false⟩)] (by decide)).1⟩

/-- C8: Vote registration is consistent and idempotent: a second vote from
the same voter that differs from the first is rejected with InvalidArgument
and the counter (tally and vote record) is unchanged, while an identical
duplicate returns OK, reports is_duplicate, and changes nothing. -/
theorem c8_voteCounter_registerVote_consistent (c : VoteCounter) (u : String)
    (voteInfo priorVoteInfo : VoteInfo)
    (h : c.votes.lookup u = some priorVoteInfo) :
    (priorVoteInfo.vote ≠ voteInfo.vote →
      c.registerVote u voteInfo =
        (c, false, some (.invalidArgument "voted a different way twice in the same election"))) ∧
    (priorVoteInfo.vote = voteInfo.vote →
      c.registerVote u voteInfo = (c, true, none)) := by
  constructor
  · intro hne
    unfold VoteCounter.registerVote
    rw [h]
    simp [hne]
  · intro heq
    unfold VoteCounter.registerVote
    rw [h]
    simp [heq]

/-- Closed witness for c8_voteCounter_registerVote_consistent. -/
theorem c8_voteCounter_registerVote_consistent_witness :
    (let c1 := ((VoteCounter.init 3 2).registerVote "a" ⟨.granted, false⟩).1
     (c1.votes.lookup "a" = some ⟨.granted, false⟩) ∧
     (c1.registerVote "a" ⟨.denied, false⟩ =
       (c1, false, some (.invalidArgument "voted a different way twice in the same election"))) ∧
     (c1.registerVote "a" ⟨.granted, false⟩ = (c1, true, none))) := by
  refine ⟨by rfl, ?_, ?_⟩
  · exact (c8_voteCounter_registerVote_consistent _ "a" ⟨.denied, false⟩ ⟨.granted, false⟩
      (by rfl)).1 (by decide)
  · exact (c8_voteCounter_registerVote_consistent _ "a" ⟨.granted, false⟩ ⟨.granted, false⟩
      (by rfl)).2 (by decide)

/-! ## FlexibleVoteCounter, static quorum modes (leader_election.cc) -/

/-- The two static quorum modes of QuorumMode (metadata.pb) handled by
FlexibleVoteCounter::IsStaticQuorumSatisfied. -/
inductive StaticQuorumMode where
  | staticDisjunction
  | staticConjunction
deriving DecidableEq, Repr

/-- CommitRulePredicatePB : a list of regions and a regions_subset_size. -/
structure CommitRulePredicate where
  regions : List String
  regionsSubsetSize : Nat
deriving DecidableEq, Repr

/-- MajoritySize, declared in quorum_util.h line 87.  Modelled from the
spec: quorum_util.cc is not under src/; the spec commit-rule engine defines
a majority of N voters as ceil((N+1)/2), i.e. N / 2 + 1. -/
def majoritySize (numVoters : Nat) : Nat := numVoters / 2 + 1

/-- FlexibleVoteCounter state used by the static-mode decision procedure
(leader_election.cc lines 243-280 and 1128-1154): per-region yes and no
tallies and the adjusted voter distribution, plus the static commit rule.
The C++ std::map fields looked up with FindOrDie are modelled as total
functions; the constructor zero-initializes every region of the voter
distribution, so on the modelled paths the lookups always succeed.  The
SINGLE_REGION_DYNAMIC decision path depends on wall-clock waiting and on
the last-known-leader estimate and is outside this embedding; the
commit-rule mode here is one of the two static modes, for which
GetQuorumState returns IsStaticQuorumSatisfied directly
(leader_election.cc lines 1128-1136). -/
structure FlexibleVoteCounter where
  yesVoteCount : String → Nat
  noVoteCount : String → Nat
  voterDistribution : String → Nat
  commitRuleMode : StaticQuorumMode
  rulePredicates : List CommitRulePredicate

/-- FlexibleVoteCounter::IsMajoritySatisfiedInRegions specialized to a
single region (leader_election.cc lines 383-445): returns the pair
(quorum_satisfied, quorum_satisfaction_possible). -/
def FlexibleVoteCounter.isMajoritySatisfiedInRegion (c : FlexibleVoteCounter)
    (region : String) : Bool × Bool :=
  if region = "" then (false, false)
  else
    let regionalYesCount := c.yesVoteCount region
    let regionalNoCount := c.noVoteCount region
    let totalRegionCount := c.voterDistribution region
    let regionMajoritySize := majoritySize totalRegionCount
    let quorumSatisfied : Bool := decide (regionMajoritySize ≤ regionalYesCount)
    let quorumSatisfactionPossible : Bool :=
      quorumSatisfied || decide (regionalNoCount + regionMajoritySize ≤ totalRegionCount)
    (quorumSatisfied, quorumSatisfactionPossible)

/-- One iteration of the rule-predicate loop in
FlexibleVoteCounter::IsStaticQuorumSatisfied (leader_election.cc lines
460-501): the number of required regional majorities is the flexible
quorum dual regions_size + 1 - regions_subset_size, and the loop counts
the regions whose majority is satisfied and those where it has become
impossible. -/
def FlexibleVoteCounter.predicateSatisfaction (c : FlexibleVoteCounter)
    (p : CommitRulePredicate) : Bool × Bool :=
  let regionsSubsetSize := p.regions.length + 1 - p.regionsSubsetSize
  let numRegionsSatisfied :=
    p.regions.countP (fun region => (c.isMajoritySatisfiedInRegion region).1)
  let numRegionsImpossibleToSatisfy :=
    p.regions.countP (fun region => !(c.isMajoritySatisfiedInRegion region).2)
  (decide (regionsSubsetSize ≤ numRegionsSatisfied),
   decide (regionsSubsetSize ≤ p.regions.length - numRegionsImpossibleToSatisfy))

/-- FlexibleVoteCounter::IsStaticQuorumSatisfied (leader_election.cc lines
447-503): both components start true and are cleared when some predicate
fails its condition, i.e. they are conjunctions over the predicates. -/
def FlexibleVoteCounter.isStaticQuorumSatisfied (c : FlexibleVoteCounter) : Bool × Bool :=
  (c.rulePredicates.all (fun p => (c.predicateSatisfaction p).1),
   c.rulePredicates.all (fun p => (c.predicateSatisfaction p).2))

/-- FlexibleVoteCounter::GetQuorumState (leader_election.cc lines
1128-1136): in STATIC_DISJUNCTION and STATIC_CONJUNCTION mode it returns
IsStaticQuorumSatisfied. -/
def FlexibleVoteCounter.getQuorumState (c : FlexibleVoteCounter) : Bool × Bool :=
  c.isStaticQuorumSatisfied

/-- FlexibleVoteCounter::IsDecided (leader_election.cc lines 1138-1141). -/
def FlexibleVoteCounter.isDecided (c : FlexibleVoteCounter) : Bool :=
  c.getQuorumState.1 || !c.getQuorumState.2

/-- FlexibleVoteCounter::GetDecision (leader_election.cc lines 1143-1154). -/
def FlexibleVoteCounter.getDecision (c : FlexibleVoteCounter) : Except Err ElectionVote :=
  if c.getQuorumState.1 then .ok .granted
  else if !c.getQuorumState.2 then .ok .denied
  else .error (.illegalState "Vote not yet decided")

/-- Written from the claim, for the refinement comparison: region has a
yes-vote regional majority. -/
def FlexibleVoteCounter.regionalYesMajority (c : FlexibleVoteCounter)
    (region : String) : Bool :=
  !(region == "") &&
    decide (majoritySize (c.voterDistribution region) ≤ c.yesVoteCount region)

/-- Written from the claim, for the refinement comparison: the
flexible-quorum dual requirement of a rule predicate listing R regions with
regions_subset_size S is yes-vote regional majorities in at least
R + 1 - S of those regions. -/
def dualRequirementMet (c : FlexibleVoteCounter) (p : CommitRulePredicate) : Prop :=
  p.regions.length + 1 - p.regionsSubsetSize ≤
    p.regions.countP (fun region => c.regionalYesMajority region)

/-- Future votes: ay r additional yes votes and an r additional no votes
arrive in each region r. -/
def FlexibleVoteCounter.addVotes (c : FlexibleVoteCounter) (ay an : String → Nat) :
    FlexibleVoteCounter :=
  { c with
      yesVoteCount := fun r => c.yesVoteCount r + ay r
      noVoteCount := fun r => c.noVoteCount r + an r }

/-- Future votes can only come from voters that have not voted yet. -/
def BoundedFutureVotes (c : FlexibleVoteCounter) (ay an : String → Nat) : Prop :=
  ∀ r, c.yesVoteCount r + c.noVoteCount r + ay r + an r ≤ c.voterDistribution r

/-- Written from the claim: no bounded set of future votes can ever meet
the dual requirement of predicate p. -/
def NoFutureVotesCanMeet (c : FlexibleVoteCounter) (p : CommitRulePredicate) : Prop :=
  ∀ ay an : String → Nat, BoundedFutureVotes c ay an →
    ¬ dualRequirementMet (c.addVotes ay an) p

theorem isMajoritySatisfiedInRegion_fst_eq (c : FlexibleVoteCounter) (region : String) :
    (c.isMajoritySatisfiedInRegion region).1 = c.regionalYesMajority region := by
  unfold FlexibleVoteCounter.isMajoritySatisfiedInRegion FlexibleVoteCounter.regionalYesMajority
  by_cases h : region = "" <;> simp [h]

theorem isMajoritySatisfiedInRegion_sat_possible (c : FlexibleVoteCounter) (region : String)
    (h : (c.isMajoritySatisfiedInRegion region).1 = true) :
    (c.isMajoritySatisfiedInRegion region).2 = true := by
  unfold FlexibleVoteCounter.isMajoritySatisfiedInRegion at h ⊢
  by_cases hr : region = ""
  · simp [hr] at h
  · simp only [if_neg hr] at h ⊢
    simp [h]

theorem addVotes_voterDistribution (c : FlexibleVoteCounter) (ay an : String → Nat) :
    (c.addVotes ay an).voterDistribution = c.voterDistribution := rfl

theorem isMajoritySatisfiedInRegion_impossible_stays (c : FlexibleVoteCounter)
    (region : String) (ay an : String → Nat) (hb : BoundedFutureVotes c ay an)
    (h : (c.isMajoritySatisfiedInRegion region).2 = false) :
    ((c.addVotes ay an).isMajoritySatisfiedInRegion region).1 = false := by
  unfold FlexibleVoteCounter.isMajoritySatisfiedInRegion at h ⊢
  by_cases hr : region = ""
  · simp [hr]
  · simp only [if_neg hr] at h ⊢
    simp only [Bool.or_eq_false_iff, decide_eq_false_iff_not] at h
    obtain ⟨h1, h2⟩ := h
    have hbr := hb region
    simp only [FlexibleVoteCounter.addVotes, decide_eq_false_iff_not]
    omega

theorem isMajoritySatisfiedInRegion_possible_fullYes (c : FlexibleVoteCounter)
    (region : String)
    (hb0 : ∀ r, c.yesVoteCount r + c.noVoteCount r ≤ c.voterDistribution r)
    (h : (c.isMajoritySatisfiedInRegion region).2 = true) :
    ((c.addVotes
        (fun r => c.voterDistribution r - c.yesVoteCount r - c.noVoteCount r)
        (fun _ => 0)).isMajoritySatisfiedInRegion region).1 = true := by
  unfold FlexibleVoteCounter.isMajoritySatisfiedInRegion at h ⊢
  by_cases hr : region = ""
  · simp [hr] at h
  · simp only [if_neg hr] at h ⊢
    simp only [Bool.or_eq_true, decide_eq_true_eq] at h
    have hbr := hb0 region
    simp only [FlexibleVoteCounter.addVotes, decide_eq_true_eq]
    omega

theorem countP_not_add_countP (l : List String) (f : String → Bool) :
    l.countP (fun a => !f a) + l.countP f = l.length := by
  induction l with
  | nil => simp
  | cons hd tl ih =>
    simp only [List.countP_cons, List.length_cons]
    by_cases h : f hd = true <;> simp [h] <;> omega

theorem predicateSatisfaction_fst_iff (c : FlexibleVoteCounter) (p : CommitRulePredicate) :
    (c.predicateSatisfaction p).1 = true ↔ dualRequirementMet c p := by
  unfold FlexibleVoteCounter.predicateSatisfaction dualRequirementMet
  simp [isMajoritySatisfiedInRegion_fst_eq]

theorem predicateSatisfaction_impossible_unsat (c : FlexibleVoteCounter)
    (p : CommitRulePredicate) (h : (c.predicateSatisfaction p).2 = false) :
    (c.predicateSatisfaction p).1 = false := by
  unfold FlexibleVoteCounter.predicateSatisfaction at h ⊢
  simp only [decide_eq_false_iff_not, not_le] at h
  simp only [decide_eq_false_iff_not, not_le]
  have hmono : p.regions.countP (fun region => (c.isMajoritySatisfiedInRegion region).1) ≤
      p.regions.countP (fun region => (c.isMajoritySatisfiedInRegion region).2) :=
    List.countP_mono_left (fun r _ hr => isMajoritySatisfiedInRegion_sat_possible c r hr)
  have hsplit := countP_not_add_countP p.regions
    (fun region => (c.isMajoritySatisfiedInRegion region).2)
  omega

theorem predicateSatisfaction_impossible_future (c : FlexibleVoteCounter)
    (p : CommitRulePredicate) (h : (c.predicateSatisfaction p).2 = false)
    (ay an : String → Nat) (hb : BoundedFutureVotes c ay an) :
    ((c.addVotes ay an).predicateSatisfaction p).1 = false := by
  unfold FlexibleVoteCounter.predicateSatisfaction at h ⊢
  simp only [decide_eq_false_iff_not, not_le] at h
  simp only [decide_eq_false_iff_not, not_le]
  have hmono : p.regions.countP
        (fun region => ((c.addVotes ay an).isMajoritySatisfiedInRegion region).1) ≤
      p.regions.countP (fun region => (c.isMajoritySatisfiedInRegion region).2) := by
    refine List.countP_mono_left (fun r _ hr => ?_)
    by_contra hc
    rw [Bool.not_eq_true] at hc
    rw [isMajoritySatisfiedInRegion_impossible_stays c r ay an hb hc] at hr
    exact Bool.false_ne_true hr
  have hsplit := countP_not_add_countP p.regions
    (fun region => (c.isMajoritySatisfiedInRegion region).2)
  omega

theorem predicateSatisfaction_possible_future (c : FlexibleVoteCounter)
    (p : CommitRulePredicate)
    (hb0 : ∀ r, c.yesVoteCount r + c.noVoteCount r ≤ c.voterDistribution r)
    (h : (c.predicateSatisfaction p).2 = true) :
    ∃ ay an : String → Nat, BoundedFutureVotes c ay an ∧
      ((c.addVotes ay an).predicateSatisfaction p).1 = true := by
  refine ⟨fun r => c.voterDistribution r - c.yesVoteCount r - c.noVoteCount r,
    fun _ => 0, ?_, ?_⟩
  · intro r
    have := hb0 r
    dsimp only
    omega
  unfold FlexibleVoteCounter.predicateSatisfaction at h ⊢
  simp only [decide_eq_true_eq] at h
  simp only [decide_eq_true_eq]
  have hmono : p.regions.countP (fun region => (c.isMajoritySatisfiedInRegion region).2) ≤
      p.regions.countP (fun region =>
        ((c.addVotes
          (fun r => c.voterDistribution r - c.yesVoteCount r - c.noVoteCount r)
          (fun _ => 0)).isMajoritySatisfiedInRegion region).1) :=
    List.countP_mono_left (fun r _ hr =>
      isMajoritySatisfiedInRegion_possible_fullYes c r hb0 hr)
  have hsplit := countP_not_add_countP p.regions
    (fun region => (c.isMajoritySatisfiedInRegion region).2)
  omega

theorem noFutureVotes_iff_impossible (c : FlexibleVoteCounter) (p : CommitRulePredicate)
    (hb0 : ∀ r, c.yesVoteCount r + c.noVoteCount r ≤ c.voterDistribution r) :
    NoFutureVotesCanMeet c p ↔ (c.predicateSatisfaction p).2 = false := by
  constructor
  · intro h
    by_contra hc
    rw [Bool.not_eq_false] at hc
    obtain ⟨ay, an, hb, hsat⟩ := predicateSatisfaction_possible_future c p hb0 hc
    exact h ay an hb ((predicateSatisfaction_fst_iff _ p).1 hsat)
  · intro h ay an hb hmet
    have := predicateSatisfaction_impossible_future c p h ay an hb
    rw [← predicateSatisfaction_fst_iff] at hmet
    rw [this] at hmet
    exact Bool.false_ne_true hmet

/-- C10: In the static quorum modes the flexible vote counter evaluates
each rule predicate by its flexible-quorum dual: a predicate listing R
regions with regions_subset_size S requires yes-vote regional majorities in
at least R + 1 - S of those regions; the election is GRANTED exactly when
every predicate meets its dual requirement, and DENIED exactly when some
predicate can no longer meet its dual requirement under any bounded set of
future votes. -/
theorem c10_flexible_static_quorum_dual (c : FlexibleVoteCounter)
    (hb0 : ∀ r, c.yesVoteCount r + c.noVoteCount r ≤ c.voterDistribution r) :
    (∀ p ∈ c.rulePredicates,
      ((c.predicateSatisfaction p).1 = true ↔ dualRequirementMet c p)) ∧
    (c.getDecision = .ok .granted ↔ ∀ p ∈ c.rulePredicates, dualRequirementMet c p) ∧
    (c.getDecision = .ok .denied ↔ ∃ p ∈ c.rulePredicates, NoFutureVotesCanMeet c p) := by
  refine ⟨fun p _ => predicateSatisfaction_fst_iff c p, ?_, ?_⟩
  · constructor
    · intro h p hp
      rw [← predicateSatisfaction_fst_iff]
      by_contra hc
      rw [Bool.not_eq_true] at hc
      have hall : c.rulePredicates.all (fun p => (c.predicateSatisfaction p).1) = false :=
        List.all_eq_false.2 ⟨p, hp, by simp [hc]⟩
      unfold FlexibleVoteCounter.getDecision FlexibleVoteCounter.getQuorumState
        FlexibleVoteCounter.isStaticQuorumSatisfied at h
      rw [hall] at h
      simp only [Bool.false_eq_true, if_false] at h
      split at h <;> simp at h
    · intro h
      have hall : c.rulePredicates.all (fun p => (c.predicateSatisfaction p).1) = true := by
        simp only [List.all_eq_true]
        exact fun p hp => (predicateSatisfaction_fst_iff c p).2 (h p hp)
      unfold FlexibleVoteCounter.getDecision FlexibleVoteCounter.getQuorumState
        FlexibleVoteCounter.isStaticQuorumSatisfied
      rw [hall]
      simp
  · constructor
    · intro h
      unfold FlexibleVoteCounter.getDecision FlexibleVoteCounter.getQuorumState
        FlexibleVoteCounter.isStaticQuorumSatisfied at h
      split at h
      · simp at h
      · split at h
        · rename_i hposs
          simp only [Bool.not_eq_eq_eq_not, Bool.not_true, List.all_eq_false] at hposs
          obtain ⟨p, hp, himp⟩ := hposs
          rw [Bool.not_eq_true] at himp
          exact ⟨p, hp, (noFutureVotes_iff_impossible c p hb0).2 himp⟩
        · simp at h
    · intro ⟨p, hp, hnofut⟩
      unfold FlexibleVoteCounter.getDecision FlexibleVoteCounter.getQuorumState
        FlexibleVoteCounter.isStaticQuorumSatisfied
      have himp : (c.predicateSatisfaction p).2 = false :=
        (noFutureVotes_iff_impossible c p hb0).1 hnofut
      have hfst : (c.predicateSatisfaction p).1 = false :=
        predicateSatisfaction_impossible_unsat c p himp
      have h1 : c.rulePredicates.all (fun p => (c.predicateSatisfaction p).1) = false := by
        simp only [List.all_eq_false]
        exact ⟨p, hp, by simp [hfst]⟩
      have h2 : c.rulePredicates.all (fun p => (c.predicateSatisfaction p).2) = false := by
        simp only [List.all_eq_false]
        exact ⟨p, hp, by simp [himp]⟩
      simp [h1, h2]

/-- Closed witness for c10_flexible_static_quorum_dual: three voters in
region A, two in region B; one predicate over both regions with
regions_subset_size 2 (dual requirement 1); two yes votes have arrived in
region A, so the dual requirement is met and the election is granted. -/
theorem c10_flexible_static_quorum_dual_witness :
    (let c : FlexibleVoteCounter :=
      { yesVoteCount := fun r => if r = "A" then 2 else 0
        noVoteCount := fun _ => 0
        voterDistribution := fun r => if r = "A" then 3 else if r = "B" then 2 else 0
        commitRuleMode := .staticDisjunction
        rulePredicates := [{ regions := ["A", "B"], regionsSubsetSize := 2 }] }
     (∀ r, c.yesVoteCount r + c.noVoteCount r ≤ c.voterDistribution r) ∧
     (c.getDecision = .ok .granted ↔ ∀ p ∈ c.rulePredicates, dualRequirementMet c p)) := by
  refine ⟨?_, ?_⟩
  · intro r
    by_cases h : r = "A" <;> simp [h]
  · exact (c10_flexible_static_quorum_dual _
      (by intro r; by_cases h : r = "A" <;> simp [h])).2.1

/-! ## ReplicaState (raft_consensus.cc and consensus metadata) -/

/-- RaftPeerPB::MemberType. -/
inductive MemberType where
  | voter
  | nonVoter
deriving DecidableEq, Repr

/-- RaftPeerPB : the config-entry fields used on the modelled paths.
Optional protobuf fields are Option values. -/
structure RaftPeer where
  permanentUuid : Option String
  memberType : Option MemberType
  hasLastKnownAddr : Bool
  region : Option String
  quorumId : Option String
  attrsPromote : Option Bool
  attrsReplace : Option Bool
  backedByDb : Bool
deriving DecidableEq, Repr

/-- QuorumMode from metadata.pb (the modes reachable in the modelled
paths). -/
inductive QuorumMode where
  | staticDisjunction
  | staticConjunction
  | singleRegionDynamic
deriving DecidableEq, Repr

/-- CommitRulePB.  IsUseQuorumId (quorum_util.cc, not under src/) reads the
quorum-identifier type out of the commit rule, per the quorum_util.h
contract; it is modelled as the useQuorumId field. -/
structure CommitRule where
  mode : QuorumMode
  useQuorumId : Bool
  rulePredicates : List CommitRulePredicate
deriving DecidableEq, Repr

/-- RaftConfigPB : the fields used on the modelled paths. -/
structure RaftConfig where
  peers : List RaftPeer
  opidIndex : Option Int
  commitRule : Option CommitRule
  voterDistribution : List (String × Nat)
  unsafeConfigChange : Bool
deriving DecidableEq, Repr

/-- A default-constructed RaftConfigPB. -/
def defaultRaftConfig : RaftConfig :=
  { peers := [], opidIndex := none, commitRule := none,
    voterDistribution := [], unsafeConfigChange := false }

/-- RaftPeerPB::Role. -/
inductive RaftRole where
  | leader
  | follower
  | learner
  | nonParticipant
deriving DecidableEq, Repr

/-- RaftConsensus::State (raft_consensus.h): lifecycle of the replica. -/
inductive ReplicaLifecycle where
  | kNew
  | kInitialized
  | kRunning
  | kStopping
  | kStopped
  | kShutdown
deriving DecidableEq, Repr

/-- FlushToDisk (raft_consensus.h lines 735-738). -/
inductive FlushToDisk where
  | skipFlushToDisk
  | flushToDisk
deriving DecidableEq, Repr

/-- The replica state owned by RaftConsensus and its ConsensusMetadata:
queue-side facts that the modelled code only observes
(IsInLeaderMode, IsCommittedIndexInCurrentTerm, declared in
consensus_queue.h) are carried as boolean fields. -/
structure ReplicaState where
  selfUuid : String
  selfRegion : String
  selfQuorumId : String
  lifecycle : ReplicaLifecycle
  currentTerm : Nat
  votedFor : Option String
  leaderUuid : String
  committedConfig : RaftConfig
  pendingConfig : Option RaftConfig
  queueLeaderMode : Bool
  committedIndexInCurrentTerm : Bool
  lastReceivedCurLeader : OpId
  leaderTransferInProgress : Bool
  allowStartElection : Bool
  withholdVotesForTests : Bool
deriving DecidableEq, Repr

/-- ConsensusMetadata::ActiveConfig : pending config when present,
committed config otherwise. -/
def ReplicaState.activeConfig (st : ReplicaState) : RaftConfig :=
  st.pendingConfig.getD st.committedConfig

/-- Find a peer by uuid in a config. -/
def findPeer (config : RaftConfig) (uuid : String) : Option RaftPeer :=
  config.peers.find? (fun p => p.permanentUuid == some uuid)

/-- GetConsensusRole : quorum_util.cc is not under src/; modelled from the
documented contract in quorum_util.h lines 98-107: NON_PARTICIPANT when the
peer uuid is empty or not a member of the config, LEARNER for a NON_VOTER
member, otherwise LEADER exactly when the peer is the designated leader and
FOLLOWER otherwise. -/
def ReplicaState.activeRole (st : ReplicaState) : RaftRole :=
  if st.selfUuid = "" then .nonParticipant
  else
    match findPeer st.activeConfig st.selfUuid with
    | none => .nonParticipant
    | some p =>
      if p.memberType = some MemberType.voter then
        (if st.leaderUuid = st.selfUuid then .leader else .follower)
      else .learner

/-- IsVoterRole (quorum_util.h line 60, .cc not under src/): the roles that
can take part in leader elections, i.e. LEADER and FOLLOWER. -/
def isVoterRole (role : RaftRole) : Bool :=
  role = RaftRole.leader || role = RaftRole.follower

/-- RaftConsensus::SetCurrentTermUnlocked (raft_consensus.cc lines
4142-4167): refuses non-increasing terms, otherwise sets the term, clears
voted_for and clears the leader uuid. -/
def ReplicaState.setCurrentTermUnlocked (st : ReplicaState) (newTerm : Nat)
    (_flush : FlushToDisk) : ReplicaState × Option Err :=
  if newTerm ≤ st.currentTerm then
    (st, some (.illegalState "Cannot change term to a term that is lower than or equal to the current one"))
  else
    ({ st with currentTerm := newTerm, votedFor := none, leaderUuid := "" }, none)

/-- RaftConsensus::BecomeReplicaUnlocked (raft_consensus.cc lines 974-995):
clears the leader uuid and puts the queue into non-leader mode, closing the
replication pipeline. -/
def ReplicaState.becomeReplicaUnlocked (st : ReplicaState) : ReplicaState :=
  { st with leaderUuid := "", queueLeaderMode := false }

/-- RaftConsensus::HandleTermAdvanceUnlocked (raft_consensus.cc lines
3761-3779). -/
def ReplicaState.handleTermAdvanceUnlocked (st : ReplicaState) (newTerm : Nat)
    (flush : FlushToDisk) : ReplicaState × Option Err :=
  if newTerm ≤ st.currentTerm then
    (st, some (.illegalState "Cannot advance term: current term is higher"))
  else
    match ((if st.activeRole = .leader then st.becomeReplicaUnlocked
            else st).setCurrentTermUnlocked newTerm flush) with
    | (st2, some e) => (st2, some e)
    | (st2, none) => ({ st2 with lastReceivedCurLeader := minimumOpId }, none)

theorem becomeReplica_currentTerm (st : ReplicaState) :
    st.becomeReplicaUnlocked.currentTerm = st.currentTerm := rfl

theorem activeRole_ne_leader_of_no_leader (st : ReplicaState) (h : st.leaderUuid = "") :
    st.activeRole ≠ .leader := by
  unfold ReplicaState.activeRole
  by_cases h0 : st.selfUuid = ""
  · simp [h0]
  · rw [if_neg h0]
    cases hf : findPeer st.activeConfig st.selfUuid with
    | none => simp
    | some p =>
      by_cases hv : p.memberType = some MemberType.voter
      · have : st.leaderUuid ≠ st.selfUuid := by rw [h]; exact fun hc => h0 hc.symm
        simp [hv, this]
      · simp [hv]

/-- Shared helper: full characterization of HandleTermAdvanceUnlocked. -/
theorem handleTermAdvance_spec (st : ReplicaState) (newTerm : Nat) (flush : FlushToDisk) :
    (newTerm ≤ st.currentTerm →
      st.handleTermAdvanceUnlocked newTerm flush =
        (st, some (.illegalState "Cannot advance term: current term is higher"))) ∧
    (st.currentTerm < newTerm →
      (st.handleTermAdvanceUnlocked newTerm flush).2 = none ∧
      (st.handleTermAdvanceUnlocked newTerm flush).1.currentTerm = newTerm ∧
      (st.handleTermAdvanceUnlocked newTerm flush).1.votedFor = none ∧
      (st.handleTermAdvanceUnlocked newTerm flush).1.leaderUuid = "" ∧
      (st.handleTermAdvanceUnlocked newTerm flush).1.activeRole ≠ .leader ∧
      (st.activeRole = .leader →
        (st.handleTermAdvanceUnlocked newTerm flush).1.queueLeaderMode = false)) := by
  constructor
  · intro h
    unfold ReplicaState.handleTermAdvanceUnlocked
    rw [if_pos h]
  · intro h
    unfold ReplicaState.handleTermAdvanceUnlocked
    rw [if_neg (by omega)]
    by_cases hl : st.activeRole = .leader
    · rw [if_pos hl]
      unfold ReplicaState.setCurrentTermUnlocked
      rw [becomeReplica_currentTerm, if_neg (by omega)]
      refine ⟨rfl, rfl, rfl, rfl, ?_, fun _ => rfl⟩
      exact activeRole_ne_leader_of_no_leader _ rfl
    · rw [if_neg hl]
      unfold ReplicaState.setCurrentTermUnlocked
      rw [if_neg (by omega)]
      refine ⟨rfl, rfl, rfl, rfl, ?_, fun hc => absurd hc hl⟩
      exact activeRole_ne_leader_of_no_leader _ rfl

/-- C2: Term advancement fails with an illegal-term error and leaves the
state unchanged when the new term is not larger than the current one;
otherwise it succeeds, a leader first becomes a non-leader replica with the
replication pipeline closed, the term is set to the new term, voted_for is
cleared, and the leader uuid is cleared. -/
theorem c2_handleTermAdvance (st : ReplicaState) (newTerm : Nat) (flush : FlushToDisk) :
    (newTerm ≤ st.currentTerm →
      st.handleTermAdvanceUnlocked newTerm flush =
        (st, some (.illegalState "Cannot advance term: current term is higher"))) ∧
    (st.currentTerm < newTerm →
      (st.handleTermAdvanceUnlocked newTerm flush).2 = none ∧
      (st.handleTermAdvanceUnlocked newTerm flush).1.currentTerm = newTerm ∧
      (st.handleTermAdvanceUnlocked newTerm flush).1.votedFor = none ∧
      (st.handleTermAdvanceUnlocked newTerm flush).1.leaderUuid = "" ∧
      (st.handleTermAdvanceUnlocked newTerm flush).1.activeRole ≠ .leader ∧
      (st.activeRole = .leader →
        (st.handleTermAdvanceUnlocked newTerm flush).1.queueLeaderMode = false)) :=
  handleTermAdvance_spec st newTerm flush

/-- A single-voter config fixture used by concrete witnesses. -/
def fixturePeer (uuid : String) : RaftPeer :=
  { permanentUuid := some uuid, memberType := some .voter, hasLastKnownAddr := true,
    region := some "r1", quorumId := none, attrsPromote := none, attrsReplace := none,
    backedByDb := false }

/-- A config fixture with voters A, B, C used by concrete witnesses. -/
def fixtureConfigABC : RaftConfig :=
  { peers := [fixturePeer "A", fixturePeer "B", fixturePeer "C"], opidIndex := some 0,
    commitRule := none, voterDistribution := [], unsafeConfigChange := false }

/-- A replica state fixture used by concrete witnesses: uuid A, leader A of
term 3. -/
def fixtureLeaderA : ReplicaState :=
  { selfUuid := "A", selfRegion := "r1", selfQuorumId := "", lifecycle := .kRunning,
    currentTerm := 3,
    votedFor := some "A", leaderUuid := "A", committedConfig := fixtureConfigABC,
    pendingConfig := none, queueLeaderMode := true, committedIndexInCurrentTerm := true,
    lastReceivedCurLeader := ⟨3, 7⟩, leaderTransferInProgress := false,
    allowStartElection := true, withholdVotesForTests := false }

/-- A replica state fixture used by concrete witnesses: uuid B, follower of
leader A at term 4, no vote recorded. -/
def fixtureFollowerB : ReplicaState :=
  { selfUuid := "B", selfRegion := "r1", selfQuorumId := "", lifecycle := .kRunning,
    currentTerm := 4,
    votedFor := none, leaderUuid := "A", committedConfig := fixtureConfigABC,
    pendingConfig := none, queueLeaderMode := false, committedIndexInCurrentTerm := false,
    lastReceivedCurLeader := ⟨4, 9⟩, leaderTransferInProgress := false,
    allowStartElection := true, withholdVotesForTests := false }

/-- Closed witness for c2_handleTermAdvance: a leader of term 3 advancing
to term 5, and the rejected advance to term 3. -/
theorem c2_handleTermAdvance_witness :
    ((3 : Nat) ≤ fixtureLeaderA.currentTerm →
      fixtureLeaderA.handleTermAdvanceUnlocked 3 .flushToDisk =
        (fixtureLeaderA, some (.illegalState "Cannot advance term: current term is higher"))) ∧
    (fixtureLeaderA.currentTerm < 5 →
      (fixtureLeaderA.handleTermAdvanceUnlocked 5 .flushToDisk).2 = none ∧
      (fixtureLeaderA.handleTermAdvanceUnlocked 5 .flushToDisk).1.currentTerm = 5 ∧
      (fixtureLeaderA.handleTermAdvanceUnlocked 5 .flushToDisk).1.votedFor = none ∧
      (fixtureLeaderA.handleTermAdvanceUnlocked 5 .flushToDisk).1.leaderUuid = "" ∧
      (fixtureLeaderA.handleTermAdvanceUnlocked 5 .flushToDisk).1.activeRole ≠ .leader ∧
      (fixtureLeaderA.activeRole = .leader →
        (fixtureLeaderA.handleTermAdvanceUnlocked 5 .flushToDisk).1.queueLeaderMode = false)) :=
  ⟨(c2_handleTermAdvance fixtureLeaderA 3 .flushToDisk).1,
   (c2_handleTermAdvance fixtureLeaderA 5 .flushToDisk).2⟩

/-! ## Follower update path : term handling (raft_consensus.cc) -/

/-- ConsensusErrorPB::Code values used on the modelled paths. -/
inductive ConsensusErrorCode where
  | invalidTerm
  | precedingEntryDidntMatch
  | cannotPrepare
  | alreadyVoted
  | lastOpIdTooOld
  | leaderIsAlive
  | consensusBusy
  | unknownError
deriving DecidableEq, Repr

/-- The consensus response fields filled by
FillConsensusResponseOKUnlocked and FillConsensusResponseError. -/
structure ConsensusResponse where
  responderTerm : Nat
  error : Option ConsensusErrorCode
  lastReceived : OpId
  lastReceivedCurrentLeader : OpId
  lastCommittedIdx : Nat
deriving DecidableEq, Repr

/-- RaftConsensus::HandleLeaderRequestTermUnlocked (raft_consensus.cc lines
1472-1495).  Returns the state, the response error (if any), and the
Status. -/
def ReplicaState.handleLeaderRequestTermUnlocked (st : ReplicaState) (callerTerm : Nat) :
    ReplicaState × Option ConsensusErrorCode × Option Err :=
  if callerTerm ≠ st.currentTerm then
    if callerTerm < st.currentTerm then
      (st, some .invalidTerm, none)
    else
      match st.handleTermAdvanceUnlocked callerTerm .flushToDisk with
      | (st1, some e) => (st1, none, some e)
      | (st1, none) => (st1, none, none)
  else (st, none, none)

/-- RaftConsensus::FillConsensusResponseOKUnlocked (raft_consensus.cc lines
1995-2012), with the queue observations passed in. -/
def ReplicaState.fillConsensusResponseOKUnlocked (st : ReplicaState)
    (lastOpIdInLog : OpId) (committedIndex : Nat)
    (error : Option ConsensusErrorCode) : ConsensusResponse :=
  { responderTerm := st.currentTerm
    error := error
    lastReceived := lastOpIdInLog
    lastReceivedCurrentLeader := st.lastReceivedCurLeader
    lastCommittedIdx := committedIndex }

/-- The term-checking prefix of RaftConsensus::UpdateReplica
(raft_consensus.cc lines 1750-1755 via CheckLeaderRequestUnlocked line
1596): on a term error the response is completed with the current state and
the call returns OK without further processing. -/
def ReplicaState.updateReplicaTermGate (st : ReplicaState) (callerTerm : Nat)
    (lastOpIdInLog : OpId) (committedIndex : Nat) :
    ReplicaState × Option ConsensusResponse × Option Err :=
  match st.handleLeaderRequestTermUnlocked callerTerm with
  | (st1, _, some e) => (st1, none, some e)
  | (st1, some errorCode, none) =>
    (st1, some (st1.fillConsensusResponseOKUnlocked lastOpIdInLog committedIndex
      (some errorCode)), none)
  | (st1, none, none) => (st1, none, none)

/-- C3: A leader update whose caller term is below the current term is
rejected with an InvalidTerm response that carries the current term, the
local term unchanged; a caller term above the current term advances the
local term to the caller term before the request is processed further. -/
theorem c3_updateReplica_term_handling (st : ReplicaState) (callerTerm : Nat)
    (lastOpIdInLog : OpId) (committedIndex : Nat) :
    (callerTerm < st.currentTerm →
      st.updateReplicaTermGate callerTerm lastOpIdInLog committedIndex =
        (st, some (st.fillConsensusResponseOKUnlocked lastOpIdInLog committedIndex
          (some .invalidTerm)), none) ∧
      (st.fillConsensusResponseOKUnlocked lastOpIdInLog committedIndex
        (some .invalidTerm)).responderTerm = st.currentTerm) ∧
    (st.currentTerm < callerTerm →
      (st.updateReplicaTermGate callerTerm lastOpIdInLog committedIndex).1.currentTerm =
        callerTerm ∧
      (st.updateReplicaTermGate callerTerm lastOpIdInLog committedIndex).2.1 = none ∧
      (st.updateReplicaTermGate callerTerm lastOpIdInLog committedIndex).2.2 = none) := by
  constructor
  · intro h
    unfold ReplicaState.updateReplicaTermGate ReplicaState.handleLeaderRequestTermUnlocked
    rw [if_pos (by omega), if_pos h]
    exact ⟨rfl, rfl⟩
  · intro h
    unfold ReplicaState.updateReplicaTermGate ReplicaState.handleLeaderRequestTermUnlocked
    rw [if_pos (by omega : callerTerm ≠ st.currentTerm), if_neg (by omega)]
    have hadv := (handleTermAdvance_spec st callerTerm .flushToDisk).2 h
    cases hres : st.handleTermAdvanceUnlocked callerTerm .flushToDisk with
    | mk st1 s =>
      rw [hres] at hadv
      cases s with
      | some e => exact absurd hadv.1 (by simp)
      | none => exact ⟨hadv.2.1, rfl, rfl⟩

/-- Closed witness for c3_updateReplica_term_handling: replica at term 4,
rejected caller at term 2 and accepted caller at term 6. -/
theorem c3_updateReplica_term_handling_witness :
    ((2 : Nat) < fixtureFollowerB.currentTerm →
      fixtureFollowerB.updateReplicaTermGate 2 ⟨4, 9⟩ 8 =
        (fixtureFollowerB,
         some (fixtureFollowerB.fillConsensusResponseOKUnlocked ⟨4, 9⟩ 8 (some .invalidTerm)),
         none) ∧
      (fixtureFollowerB.fillConsensusResponseOKUnlocked ⟨4, 9⟩ 8
        (some .invalidTerm)).responderTerm = fixtureFollowerB.currentTerm) ∧
    (fixtureFollowerB.currentTerm < 6 →
      (fixtureFollowerB.updateReplicaTermGate 6 ⟨4, 9⟩ 8).1.currentTerm = 6 ∧
      (fixtureFollowerB.updateReplicaTermGate 6 ⟨4, 9⟩ 8).2.1 = none ∧
      (fixtureFollowerB.updateReplicaTermGate 6 ⟨4, 9⟩ 8).2.2 = none) :=
  ⟨(c3_updateReplica_term_handling fixtureFollowerB 2 ⟨4, 9⟩ 8).1,
   (c3_updateReplica_term_handling fixtureFollowerB 6 ⟨4, 9⟩ 8).2⟩

/-! ## RequestVote (raft_consensus.cc lines 2022-2224 and 2851-3030) -/

/-- VoteRequestPB : the fields used on the modelled paths. -/
structure VoteRequest where
  candidateUuid : String
  candidateTerm : Nat
  isPreElection : Bool
  ignoreLiveLeader : Bool
  candidateLastReceived : OpId
deriving DecidableEq, Repr

/-- VoteResponsePB : the fields used on the modelled paths. -/
structure VoteResponse where
  responderTerm : Nat
  voteGranted : Bool
  errorCode : Option ConsensusErrorCode
deriving DecidableEq, Repr

/-- The gflags read by the modelled paths of RaftConsensus. -/
structure RaftFlags where
  enableFlexiRaft : Bool
  lagThresholdForRequestVote : Int
  allowMultipleBackedByDbPerQuorum : Bool
deriving DecidableEq, Repr

/-- RaftConsensus::FillVoteResponseVoteGranted (raft_consensus.cc lines
2856-2861). -/
def ReplicaState.fillVoteResponseVoteGranted (st : ReplicaState) : VoteResponse :=
  { responderTerm := st.currentTerm, voteGranted := true, errorCode := none }

/-- RaftConsensus::FillVoteResponseVoteDenied (raft_consensus.cc lines
2863-2870). -/
def ReplicaState.fillVoteResponseVoteDenied (st : ReplicaState)
    (errorCode : ConsensusErrorCode) : VoteResponse :=
  { responderTerm := st.currentTerm, voteGranted := false, errorCode := some errorCode }

/-- The outcome of RaftConsensus::RequestVote: the replica state, the
response when the call returns OK, whether SetVotedForCurrentTermUnlocked
was invoked, and the returned Status when not OK. -/
structure RequestVoteResult where
  state : ReplicaState
  response : Option VoteResponse
  persistedVote : Bool
  status : Option Err
deriving DecidableEq, Repr

/-- The candidate region from
ConsensusMetadata::IsMemberInConfigWithDetail (the detail lookup over the
active config declared in quorum_util.h lines 54-56; the .cc is not under
src/, the contract is name lookup returning the region of the member, empty
when absent). -/
def ReplicaState.candidateRegion (st : ReplicaState) (uuid : String) : String :=
  match findPeer st.activeConfig uuid with
  | some p => p.region.getD ""
  | none => ""

/-- The term-advancement step of RequestVote (raft_consensus.cc lines
2203-2216): non-pre-election requests with a higher candidate term step the
replica down, skipping the metadata flush when the vote that follows will
flush anyway. -/
def ReplicaState.requestVoteMaybeAdvanceTerm (st : ReplicaState) (req : VoteRequest)
    (voteYes : Bool) : ReplicaState × Option Err :=
  if ¬req.isPreElection ∧ st.currentTerm < req.candidateTerm then
    st.handleTermAdvanceUnlocked req.candidateTerm
      (if voteYes then .skipFlushToDisk else .flushToDisk)
  else (st, none)

/-- The decision tail of RequestVote (raft_consensus.cc lines 2218-2223 and
RequestVoteRespondLastOpIdTooOld / RequestVoteRespondVoteGranted, lines
2925-2945 and 3001-3030): deny when the candidate log is behind, otherwise
grant, persisting the vote only for non-pre-election requests. -/
def ReplicaState.requestVoteDecideVote (st1 : ReplicaState) (req : VoteRequest)
    (voteYes : Bool) : RequestVoteResult :=
  if !voteYes then
    ⟨st1, some (st1.fillVoteResponseVoteDenied .lastOpIdTooOld), false, none⟩
  else if req.isPreElection then
    ⟨st1, some st1.fillVoteResponseVoteGranted, false, none⟩
  else
    ⟨{ st1 with votedFor := some req.candidateUuid },
     some ({ st1 with votedFor := some req.candidateUuid }).fillVoteResponseVoteGranted,
     true, none⟩

/-- The check_srd_lag condition of RequestVote (raft_consensus.cc lines
2175-2183): the lag heuristic only applies in flexi-raft
single-region-dynamic mode when the voter shares the candidate region. -/
def ReplicaState.checkSrdLag (st : ReplicaState) (flags : RaftFlags)
    (req : VoteRequest) : Bool :=
  flags.lagThresholdForRequestVote ≠ -1 && flags.enableFlexiRaft &&
  (match st.committedConfig.commitRule with
   | some commitRule => commitRule.mode = QuorumMode.singleRegionDynamic
   | none => false) &&
  !(st.candidateRegion req.candidateUuid == "") &&
  st.selfRegion == st.candidateRegion req.candidateUuid

/-- The vote_yes condition of RequestVote (raft_consensus.cc lines
2185-2187): grant when the candidate last-logged OpId is not behind ours. -/
def voteYesOf (req : VoteRequest) (localLastLoggedOpId : OpId) : Bool :=
  !OpIdLessThan req.candidateLastReceived localLastLoggedOpId

/-- RaftConsensus::RequestVote (raft_consensus.cc lines 2093-2224), after
the lifecycle and update-lock preamble: the test withhold hook, the
live-leader withhold window (the comparison now < withhold_votes_until_ is
the boolean input), the term checks, the already-voted-this-term replies,
the flexi-raft single-region-dynamic lag withholding, term advancement, and
the final grant or last-op-id denial. -/
def ReplicaState.requestVote (flags : RaftFlags) (st : ReplicaState)
    (nowBeforeWithholdUntil : Bool) (localLastLoggedOpId : OpId)
    (req : VoteRequest) : RequestVoteResult :=
  if st.withholdVotesForTests then
    ⟨st, some (st.fillVoteResponseVoteDenied .unknownError), false, none⟩
  else if !req.ignoreLiveLeader && nowBeforeWithholdUntil then
    ⟨st, some (st.fillVoteResponseVoteDenied .leaderIsAlive), false, none⟩
  else if req.candidateTerm < st.currentTerm then
    ⟨st, some (st.fillVoteResponseVoteDenied .invalidTerm), false, none⟩
  else if req.candidateTerm = st.currentTerm ∧ st.votedFor.isSome then
    if st.votedFor = some req.candidateUuid then
      ⟨st, some st.fillVoteResponseVoteGranted, false, none⟩
    else
      ⟨st, some (st.fillVoteResponseVoteDenied .alreadyVoted), false, none⟩
  else
    if voteYesOf req localLastLoggedOpId && st.checkSrdLag flags req &&
        decide (flags.lagThresholdForRequestVote <
          (req.candidateLastReceived.index : Int) - (localLastLoggedOpId.index : Int)) then
      ⟨st, some (st.fillVoteResponseVoteDenied .unknownError), false, none⟩
    else
      match st.requestVoteMaybeAdvanceTerm req (voteYesOf req localLastLoggedOpId) with
      | (st1, some e) => ⟨st1, none, false, some e⟩
      | (st1, none) => st1.requestVoteDecideVote req (voteYesOf req localLastLoggedOpId)

/-- Shared helper: the term-advance step either leaves the state unchanged
or strictly increases the term while clearing voted_for. -/
theorem requestVoteMaybeAdvanceTerm_spec (st : ReplicaState) (req : VoteRequest)
    (voteYes : Bool) :
    (st.requestVoteMaybeAdvanceTerm req voteYes).2 = none →
    (st.requestVoteMaybeAdvanceTerm req voteYes).1 = st ∨
      (st.currentTerm < (st.requestVoteMaybeAdvanceTerm req voteYes).1.currentTerm ∧
       (st.requestVoteMaybeAdvanceTerm req voteYes).1.votedFor = none ∧
       req.isPreElection = false) := by
  unfold ReplicaState.requestVoteMaybeAdvanceTerm
  by_cases hc : ¬req.isPreElection ∧ st.currentTerm < req.candidateTerm
  · rw [if_pos hc]
    intro _
    right
    have hadv := (handleTermAdvance_spec st req.candidateTerm
      (if voteYes then .skipFlushToDisk else .flushToDisk)).2 hc.2
    exact ⟨by rw [hadv.2.1]; exact hc.2, hadv.2.2.1, by
      rcases hc with ⟨hpre, _⟩
      rwa [Bool.not_eq_true] at hpre⟩
  · rw [if_neg hc]
    exact fun _ => Or.inl rfl

/-- Shared helper: the pre-election advance step is the identity. -/
theorem requestVoteMaybeAdvanceTerm_pre (st : ReplicaState) (req : VoteRequest)
    (voteYes : Bool) (h : req.isPreElection = true) :
    st.requestVoteMaybeAdvanceTerm req voteYes = (st, none) := by
  unfold ReplicaState.requestVoteMaybeAdvanceTerm
  rw [if_neg]
  intro hc
  exact hc.1 h


/-- Shared helper: the advance step never returns an error Status. -/
theorem requestVoteMaybeAdvanceTerm_statusNone (st : ReplicaState) (req : VoteRequest)
    (voteYes : Bool) : (st.requestVoteMaybeAdvanceTerm req voteYes).2 = none := by
  unfold ReplicaState.requestVoteMaybeAdvanceTerm
  by_cases hc : ¬req.isPreElection ∧ st.currentTerm < req.candidateTerm
  · rw [if_pos hc]
    exact ((handleTermAdvance_spec st req.candidateTerm _).2 hc.2).1
  · rw [if_neg hc]

/-- Shared helper: if the advance step returned the state unchanged, then
either the request was a pre-election or the candidate term was not above
the current term. -/
theorem requestVoteMaybeAdvanceTerm_unchanged (st : ReplicaState) (req : VoteRequest)
    (voteYes : Bool) (h : (st.requestVoteMaybeAdvanceTerm req voteYes).1 = st) :
    req.isPreElection = true ∨ req.candidateTerm ≤ st.currentTerm := by
  unfold ReplicaState.requestVoteMaybeAdvanceTerm at h
  by_cases hc : ¬req.isPreElection ∧ st.currentTerm < req.candidateTerm
  · rw [if_pos hc] at h
    have hadv := (handleTermAdvance_spec st req.candidateTerm
      (if voteYes then .skipFlushToDisk else .flushToDisk)).2 hc.2
    rw [h] at hadv
    omega
  · rw [not_and_or] at hc
    rcases hc with hc | hc
    · rw [not_not] at hc
      exact Or.inl hc
    · exact Or.inr (by omega)

/-- Shared helper: characterization of the state and persistence behavior
of RequestVote: either the state is unchanged and nothing was persisted, or
the request advanced the term (clearing voted_for) and the vote was denied,
or the vote was granted and persisted for the candidate, in which case
either the term was unchanged and no vote had been recorded for it, or the
term was just advanced. -/
theorem requestVote_state_cases (flags : RaftFlags) (st : ReplicaState)
    (nowBeforeWithholdUntil : Bool) (localLastLoggedOpId : OpId) (req : VoteRequest) :
    ((st.requestVote flags nowBeforeWithholdUntil localLastLoggedOpId req).state = st ∧
     (st.requestVote flags nowBeforeWithholdUntil localLastLoggedOpId req).persistedVote =
       false) ∨
    ((st.requestVote flags nowBeforeWithholdUntil localLastLoggedOpId req).persistedVote =
       false ∧
     st.currentTerm <
       (st.requestVote flags nowBeforeWithholdUntil localLastLoggedOpId
         req).state.currentTerm ∧
     (st.requestVote flags nowBeforeWithholdUntil localLastLoggedOpId req).state.votedFor =
       none) ∨
    ((st.requestVote flags nowBeforeWithholdUntil localLastLoggedOpId req).persistedVote =
       true ∧
     (st.requestVote flags nowBeforeWithholdUntil localLastLoggedOpId req).state.votedFor =
       some req.candidateUuid ∧
     (((st.requestVote flags nowBeforeWithholdUntil localLastLoggedOpId
          req).state.currentTerm = st.currentTerm ∧ st.votedFor = none) ∨
      st.currentTerm <
        (st.requestVote flags nowBeforeWithholdUntil localLastLoggedOpId
          req).state.currentTerm)) := by
  unfold ReplicaState.requestVote
  by_cases h1 : st.withholdVotesForTests = true
  · rw [if_pos h1]
    exact Or.inl ⟨rfl, rfl⟩
  · rw [if_neg h1]
    by_cases h2 : (!req.ignoreLiveLeader && nowBeforeWithholdUntil) = true
    · rw [if_pos h2]
      exact Or.inl ⟨rfl, rfl⟩
    · rw [if_neg h2]
      by_cases h3 : req.candidateTerm < st.currentTerm
      · rw [if_pos h3]
        exact Or.inl ⟨rfl, rfl⟩
      · rw [if_neg h3]
        by_cases h4 : req.candidateTerm = st.currentTerm ∧ st.votedFor.isSome
        · rw [if_pos h4]
          by_cases h5 : st.votedFor = some req.candidateUuid
          · rw [if_pos h5]
            exact Or.inl ⟨rfl, rfl⟩
          · rw [if_neg h5]
            exact Or.inl ⟨rfl, rfl⟩
        · rw [if_neg h4]
          have hnovote : req.candidateTerm = st.currentTerm → st.votedFor = none := by
            intro hterm
            by_contra hv
            exact h4 ⟨hterm, Option.isSome_iff_ne_none.2 hv⟩
          by_cases h6 : (voteYesOf req localLastLoggedOpId && st.checkSrdLag flags req &&
              decide (flags.lagThresholdForRequestVote <
                (req.candidateLastReceived.index : Int) -
                  (localLastLoggedOpId.index : Int))) = true
          · rw [if_pos h6]
            exact Or.inl ⟨rfl, rfl⟩
          · rw [if_neg h6]
            cases hadv : st.requestVoteMaybeAdvanceTerm req
                (voteYesOf req localLastLoggedOpId) with
            | mk st1 s =>
              cases s with
              | some e =>
                exfalso
                have := requestVoteMaybeAdvanceTerm_statusNone st req
                  (voteYesOf req localLastLoggedOpId)
                rw [hadv] at this
                exact Option.some_ne_none e this
              | none =>
                have hspec := requestVoteMaybeAdvanceTerm_spec st req
                  (voteYesOf req localLastLoggedOpId) (by rw [hadv])
                rw [hadv] at hspec
                simp only at hspec
                unfold ReplicaState.requestVoteDecideVote
                dsimp only
                by_cases h7 : (!voteYesOf req localLastLoggedOpId) = true
                · rw [if_pos h7]
                  rcases hspec with hsame | ⟨hlt, hclear, _⟩
                  · exact Or.inl ⟨hsame, rfl⟩
                  · exact Or.inr (Or.inl ⟨rfl, hlt, hclear⟩)
                · rw [if_neg h7]
                  by_cases h8 : req.isPreElection = true
                  · rw [if_pos h8]
                    rw [requestVoteMaybeAdvanceTerm_pre st req _ h8] at hadv
                    have hsame : st1 = st := (congrArg Prod.fst hadv).symm
                    exact Or.inl ⟨hsame, rfl⟩
                  · rw [if_neg h8]
                    rcases hspec with hsame | ⟨hlt, _, _⟩
                    · refine Or.inr (Or.inr ⟨rfl, by rw [hsame], Or.inl ⟨by rw [hsame], ?_⟩⟩)
                      apply hnovote
                      have := requestVoteMaybeAdvanceTerm_unchanged st req
                        (voteYesOf req localLastLoggedOpId) (by rw [hadv]; exact hsame)
                      rcases this with hpre | hle
                      · exact absurd hpre h8
                      · omega
                    · exact Or.inr (Or.inr ⟨rfl, rfl, Or.inr hlt⟩)

/-- Shared helper: the already-voted replies of RequestVote. -/
theorem requestVote_already_voted (flags : RaftFlags) (st : ReplicaState)
    (nowBeforeWithholdUntil : Bool) (localLastLoggedOpId : OpId) (req : VoteRequest)
    (h1 : st.withholdVotesForTests = false)
    (h2 : req.ignoreLiveLeader = true ∨ nowBeforeWithholdUntil = false)
    (h3 : req.candidateTerm = st.currentTerm)
    (v : String) (hv : st.votedFor = some v) :
    (v = req.candidateUuid →
      st.requestVote flags nowBeforeWithholdUntil localLastLoggedOpId req =
        ⟨st, some st.fillVoteResponseVoteGranted, false, none⟩) ∧
    (v ≠ req.candidateUuid →
      st.requestVote flags nowBeforeWithholdUntil localLastLoggedOpId req =
        ⟨st, some (st.fillVoteResponseVoteDenied .alreadyVoted), false, none⟩) := by
  unfold ReplicaState.requestVote
  rw [if_neg (by simp [h1])]
  rw [if_neg (by rcases h2 with h | h <;> simp [h])]
  rw [if_neg (by omega)]
  rw [if_pos ⟨h3, by rw [hv]; rfl⟩]
  constructor
  · intro heq
    rw [if_pos (by rw [hv, heq])]
  · intro hne
    rw [if_neg (by rw [hv]; intro hc; exact hne (Option.some.inj hc))]

/-- C1: At most one vote per term in RequestVote: within an unchanged
current term the persisted voted_for only ever goes from unset to set and
is never overwritten; voted_for is cleared only when the current term
strictly increases; SetVotedForCurrentTermUnlocked runs only when no vote
is recorded for the current term at that point (either there was no vote
for the unchanged term, or the term was just advanced, clearing it); and
when a vote has already been recorded for the current term and the
candidate term equals it, the reply is the already-granted response for the
same candidate and an AlreadyVoted denial for a different one, with no
state change. -/
theorem c1_requestVote_at_most_one_vote_per_term (flags : RaftFlags)
    (st : ReplicaState) (nowBeforeWithholdUntil : Bool) (localLastLoggedOpId : OpId)
    (req : VoteRequest) :
    ((st.requestVote flags nowBeforeWithholdUntil localLastLoggedOpId req).state.currentTerm =
        st.currentTerm →
      (st.requestVote flags nowBeforeWithholdUntil localLastLoggedOpId req).state.votedFor =
        st.votedFor ∨ st.votedFor = none) ∧
    ((st.requestVote flags nowBeforeWithholdUntil localLastLoggedOpId req).state.votedFor =
        none →
      st.votedFor = none ∨
      st.currentTerm <
        (st.requestVote flags nowBeforeWithholdUntil localLastLoggedOpId
          req).state.currentTerm) ∧
    ((st.requestVote flags nowBeforeWithholdUntil localLastLoggedOpId req).persistedVote =
        true →
      (st.votedFor = none ∧
        (st.requestVote flags nowBeforeWithholdUntil localLastLoggedOpId
          req).state.currentTerm = st.currentTerm) ∨
      st.currentTerm <
        (st.requestVote flags nowBeforeWithholdUntil localLastLoggedOpId
          req).state.currentTerm) ∧
    (st.withholdVotesForTests = false →
      (req.ignoreLiveLeader = true ∨ nowBeforeWithholdUntil = false) →
      req.candidateTerm = st.currentTerm →
      ∀ v, st.votedFor = some v →
        (v = req.candidateUuid →
          st.requestVote flags nowBeforeWithholdUntil localLastLoggedOpId req =
            ⟨st, some st.fillVoteResponseVoteGranted, false, none⟩) ∧
        (v ≠ req.candidateUuid →
          st.requestVote flags nowBeforeWithholdUntil localLastLoggedOpId req =
            ⟨st, some (st.fillVoteResponseVoteDenied .alreadyVoted), false, none⟩)) := by
  have hcases := requestVote_state_cases flags st nowBeforeWithholdUntil localLastLoggedOpId req
  refine ⟨?_, ?_, ?_, fun hw hl ht v hv =>
    requestVote_already_voted flags st nowBeforeWithholdUntil localLastLoggedOpId req
      hw hl ht v hv⟩
  · intro hterm
    rcases hcases with ⟨hsame, _⟩ | ⟨_, hlt, _⟩ | ⟨_, hvoted, hsub⟩
    · exact Or.inl (by rw [hsame])
    · omega
    · rcases hsub with ⟨_, hnone⟩ | hlt
      · exact Or.inr hnone
      · omega
  · intro hnone
    rcases hcases with ⟨hsame, _⟩ | ⟨_, hlt, _⟩ | ⟨_, hvoted, _⟩
    · exact Or.inl (by rw [← hsame]; exact hnone)
    · exact Or.inr hlt
    · rw [hvoted] at hnone
      exact absurd hnone (by simp)
  · intro hpers
    rcases hcases with ⟨_, hfalse⟩ | ⟨hfalse, _, _⟩ | ⟨_, _, hsub⟩
    · rw [hpers] at hfalse
      exact absurd hfalse (by simp)
    · rw [hpers] at hfalse
      exact absurd hfalse (by simp)
    · rcases hsub with ⟨hterm, hnone⟩ | hlt
      · exact Or.inl ⟨hnone, hterm⟩
      · exact Or.inr hlt

/-- Closed witness for c1_requestVote_at_most_one_vote_per_term: follower B
at term 4 that has already voted for C receives a request from candidate C
and from candidate A at term 4. -/
theorem c1_requestVote_at_most_one_vote_per_term_witness :
    (let st : ReplicaState := { fixtureFollowerB with votedFor := some "C" }
     let req : VoteRequest := ⟨"A", 4, false, true, ⟨4, 9⟩⟩
     st.withholdVotesForTests = false →
     (req.ignoreLiveLeader = true ∨ true = false) →
     req.candidateTerm = st.currentTerm →
     ∀ v, st.votedFor = some v →
       (v = req.candidateUuid →
         st.requestVote ⟨false, -1, false⟩ true ⟨4, 9⟩ req =
           ⟨st, some st.fillVoteResponseVoteGranted, false, none⟩) ∧
       (v ≠ req.candidateUuid →
         st.requestVote ⟨false, -1, false⟩ true ⟨4, 9⟩ req =
           ⟨st, some (st.fillVoteResponseVoteDenied .alreadyVoted), false, none⟩)) :=
  (c1_requestVote_at_most_one_vote_per_term ⟨false, -1, false⟩
    { fixtureFollowerB with votedFor := some "C" } true ⟨4, 9⟩
    ⟨"A", 4, false, true, ⟨4, 9⟩⟩).2.2.2

/-- Shared helper: a pre-election vote request never changes the voter
state and never persists a vote. -/
theorem requestVote_pre (flags : RaftFlags) (st : ReplicaState)
    (nowBeforeWithholdUntil : Bool) (localLastLoggedOpId : OpId) (req : VoteRequest)
    (hpre : req.isPreElection = true) :
    (st.requestVote flags nowBeforeWithholdUntil localLastLoggedOpId req).state = st ∧
    (st.requestVote flags nowBeforeWithholdUntil localLastLoggedOpId
      req).persistedVote = false := by
  unfold ReplicaState.requestVote
  by_cases h1 : st.withholdVotesForTests = true
  · rw [if_pos h1]; exact ⟨rfl, rfl⟩
  · rw [if_neg h1]
    by_cases h2 : (!req.ignoreLiveLeader && nowBeforeWithholdUntil) = true
    · rw [if_pos h2]; exact ⟨rfl, rfl⟩
    · rw [if_neg h2]
      by_cases h3 : req.candidateTerm < st.currentTerm
      · rw [if_pos h3]; exact ⟨rfl, rfl⟩
      · rw [if_neg h3]
        by_cases h4 : req.candidateTerm = st.currentTerm ∧ st.votedFor.isSome
        · rw [if_pos h4]
          by_cases h5 : st.votedFor = some req.candidateUuid
          · rw [if_pos h5]; exact ⟨rfl, rfl⟩
          · rw [if_neg h5]; exact ⟨rfl, rfl⟩
        · rw [if_neg h4]
          by_cases h6 : (voteYesOf req localLastLoggedOpId && st.checkSrdLag flags req &&
              decide (flags.lagThresholdForRequestVote <
                (req.candidateLastReceived.index : Int) -
                  (localLastLoggedOpId.index : Int))) = true
          · rw [if_pos h6]; exact ⟨rfl, rfl⟩
          · rw [if_neg h6]
            rw [requestVoteMaybeAdvanceTerm_pre st req _ hpre]
            unfold ReplicaState.requestVoteDecideVote
            dsimp only
            by_cases h7 : (!voteYesOf req localLastLoggedOpId) = true
            · rw [if_pos h7]; exact ⟨rfl, rfl⟩
            · rw [if_neg h7, if_pos hpre]; exact ⟨rfl, rfl⟩

/-! ## StartElection and the election callback (raft_consensus.cc) -/

/-- ElectionMode (raft_consensus.h lines 132-146). -/
inductive ElectionMode where
  | normalElection
  | preElection
  | electEvenIfLeaderIsAlive
deriving DecidableEq, Repr

/-- IsVoterInConfig of ConsensusMetadata (consensus_meta.cc is not under
src/): membership with VOTER type in the given config. -/
def isVoterInConfig (config : RaftConfig) (uuid : String) : Bool :=
  match findPeer config uuid with
  | some p => p.memberType = some MemberType.voter
  | none => false

/-- RaftConsensus::StartElection (raft_consensus.cc lines 603-765), the
replica-state effects and the vote request constructed: lifecycle check,
the allow_start_election gate, the role checks, the flexi-raft
voter-distribution check, term advance plus self-vote for non-pre
elections, and the candidate term of the request (current term plus one
for a pre-election).  The construction and dispatch of the LeaderElection
object is modelled separately. -/
def ReplicaState.startElection (flags : RaftFlags) (st : ReplicaState)
    (mode : ElectionMode) (lastOpIdInLog : OpId) :
    ReplicaState × Option VoteRequest × Option Err :=
  if st.lifecycle ≠ .kRunning then
    (st, none, some (.illegalState "RaftConsensus is not running"))
  else if !st.allowStartElection then (st, none, none)
  else if st.activeRole = .leader then (st, none, none)
  else if !(isVoterRole st.activeRole) then
    (st, none, some (.illegalState "only voting members can start elections"))
  else if flags.enableFlexiRaft &&
      !(match st.activeConfig.commitRule with
        | some commitRule => commitRule.useQuorumId
        | none => false) &&
      (st.activeConfig.voterDistribution.lookup st.selfRegion).isNone then
    (st, none,
     some (.illegalState "in flexi-raft only regions with valid voter distribution can start election"))
  else if mode ≠ ElectionMode.preElection then
    match st.handleTermAdvanceUnlocked (st.currentTerm + 1) .skipFlushToDisk with
    | (st1, some e) => (st1, none, some e)
    | (st1, none) =>
      ({ st1 with votedFor := some st.selfUuid },
       some { candidateUuid := st.selfUuid
              candidateTerm := st1.currentTerm
              isPreElection := false
              ignoreLiveLeader := mode = ElectionMode.electEvenIfLeaderIsAlive
              candidateLastReceived := lastOpIdInLog },
       none)
  else
    (st,
     some { candidateUuid := st.selfUuid
            candidateTerm := st.currentTerm + 1
            isPreElection := true
            ignoreLiveLeader := false
            candidateLastReceived := lastOpIdInLog },
     none)

/-- ElectionResult (leader_election.cc lines 1165-1174): the originating
vote request, the decision, the highest responder term seen, and the
candidate-removed flag. -/
structure ElectionResult where
  voteRequest : VoteRequest
  decision : ElectionVote
  highestVoterTerm : Nat
  isCandidateRemoved : Bool
deriving DecidableEq, Repr

/-- The externally visible action taken by DoElectionCallback. -/
inductive ElectionCallbackAction where
  | ignored
  | startRealElection
  | becameLeader
deriving DecidableEq, Repr

/-- SetLeaderUuidUnlocked plus BecomeLeaderUnlocked (raft_consensus.cc
lines 3116-3125 and 929-972): record self as leader and put the queue into
leader mode. -/
def ReplicaState.becomeLeader (st : ReplicaState) : ReplicaState :=
  { st with leaderUuid := st.selfUuid, queueLeaderMode := true }

/-- RaftConsensus::DoElectionCallback (raft_consensus.cc lines 3308-3429):
a denied result advances the term to a higher voter term; a granted result
is ignored when the election term is defunct, the replica is no longer a
voter in the active config, or it is already leader; a granted
pre-election starts a real election and a granted real election makes the
replica leader. -/
def ReplicaState.doElectionCallback (st : ReplicaState) (result : ElectionResult) :
    ReplicaState × ElectionCallbackAction :=
  if st.lifecycle ≠ .kRunning then (st, .ignored)
  else if result.decision = .denied then
    (if st.currentTerm < result.highestVoterTerm then
       (st.handleTermAdvanceUnlocked result.highestVoterTerm .flushToDisk).1
     else st, .ignored)
  else
    if result.voteRequest.candidateTerm -
        (if result.voteRequest.isPreElection then 1 else 0) ≠ st.currentTerm then
      (st, .ignored)
    else if !(isVoterInConfig st.activeConfig st.selfUuid) then (st, .ignored)
    else if st.activeRole = .leader then (st, .ignored)
    else if result.voteRequest.isPreElection then (st, .startRealElection)
    else (st.becomeLeader, .becameLeader)

/-- C6: Pre-election does not persist state: starting a PRE_ELECTION leaves
the replica state unchanged (no term advance, no vote) and requests votes
for current_term + 1; starting a real election advances the term by one and
records a self-vote; a granted pre-election callback starts the real
election without touching the state; and on the voter side a granted
pre-election vote request leaves the voter state unchanged and does not
persist the vote. -/
theorem c6_pre_election_does_not_persist (flags : RaftFlags) (st : ReplicaState)
    (lastOpIdInLog : OpId)
    (hrun : st.lifecycle = .kRunning) (hallow : st.allowStartElection = true)
    (hrole : st.activeRole = .follower)
    (hflexi : ¬(flags.enableFlexiRaft &&
      !(match st.activeConfig.commitRule with
        | some commitRule => commitRule.useQuorumId
        | none => false) &&
      (st.activeConfig.voterDistribution.lookup st.selfRegion).isNone) = true) :
    (st.startElection flags .preElection lastOpIdInLog =
      (st, some { candidateUuid := st.selfUuid, candidateTerm := st.currentTerm + 1,
                  isPreElection := true, ignoreLiveLeader := false,
                  candidateLastReceived := lastOpIdInLog }, none)) ∧
    ((st.startElection flags .normalElection lastOpIdInLog).2.2 = none ∧
     (st.startElection flags .normalElection lastOpIdInLog).1.currentTerm =
       st.currentTerm + 1 ∧
     (st.startElection flags .normalElection lastOpIdInLog).1.votedFor =
       some st.selfUuid ∧
     ∀ req, (st.startElection flags .normalElection lastOpIdInLog).2.1 = some req →
       req.candidateTerm = st.currentTerm + 1 ∧ req.isPreElection = false) ∧
    (∀ result : ElectionResult,
      result.decision = .granted → result.voteRequest.isPreElection = true →
      result.voteRequest.candidateTerm = st.currentTerm + 1 →
      isVoterInConfig st.activeConfig st.selfUuid = true →
      st.doElectionCallback result = (st, .startRealElection)) ∧
    (∀ nowBeforeWithholdUntil localLastLoggedOpId req,
      req.isPreElection = true →
      (st.requestVote flags nowBeforeWithholdUntil localLastLoggedOpId req).state = st ∧
      (st.requestVote flags nowBeforeWithholdUntil localLastLoggedOpId
        req).persistedVote = false) := by
  have hnotleader : st.activeRole ≠ .leader := by rw [hrole]; simp
  have hvoter : isVoterRole st.activeRole = true := by rw [hrole]; rfl
  refine ⟨?_, ?_, ?_, ?_⟩
  · unfold ReplicaState.startElection
    rw [if_neg (by rw [hrun]; simp), if_neg (by rw [hallow]; simp), if_neg hnotleader,
      if_neg (by rw [hvoter]; simp), if_neg hflexi, if_neg (by simp)]
  · unfold ReplicaState.startElection
    rw [if_neg (by rw [hrun]; simp), if_neg (by rw [hallow]; simp), if_neg hnotleader,
      if_neg (by rw [hvoter]; simp), if_neg hflexi, if_pos (by simp)]
    have hadv := (handleTermAdvance_spec st (st.currentTerm + 1) .skipFlushToDisk).2
      (by omega)
    cases hres : st.handleTermAdvanceUnlocked (st.currentTerm + 1) .skipFlushToDisk with
    | mk st1 s =>
      rw [hres] at hadv
      cases s with
      | some e => exact absurd hadv.1 (by simp)
      | none =>
        refine ⟨rfl, hadv.2.1, rfl, ?_⟩
        intro req hreq
        dsimp only at hreq
        rw [← Option.some.inj hreq]
        exact ⟨hadv.2.1, rfl⟩
  · intro result hgr hpre hterm hvot
    unfold ReplicaState.doElectionCallback
    rw [if_neg (by rw [hrun]; simp), if_neg (by rw [hgr]; simp),
      if_neg (by rw [hpre, hterm]; simp), if_neg (by rw [hvot]; simp),
      if_neg hnotleader, if_pos hpre]
  · intro nowB localLast req hpre
    exact requestVote_pre flags st nowB localLast req hpre

/-- Closed witness for c6_pre_election_does_not_persist: follower B of term
4 starts a pre-election asking votes for term 5 without touching its
state. -/
theorem c6_pre_election_does_not_persist_witness :
    fixtureFollowerB.startElection ⟨false, -1, false⟩ .preElection ⟨4, 9⟩ =
      (fixtureFollowerB,
       some { candidateUuid := "B", candidateTerm := 5, isPreElection := true,
              ignoreLiveLeader := false, candidateLastReceived := ⟨4, 9⟩ }, none) :=
  (c6_pre_election_does_not_persist ⟨false, -1, false⟩ fixtureFollowerB ⟨4, 9⟩
    rfl rfl (by rfl) (by decide)).1

/-! ## LeaderElection response handling (leader_election.cc) -/

/-- The voter response as seen by the candidate in
LeaderElection::VoteResponseRpcCallback: the RPC-layer status plus the
VoteResponsePB fields used. -/
structure VoterResponse where
  rpcFailed : Bool
  hasError : Bool
  responderUuid : String
  responderTerm : Nat
  voteGranted : Bool
  hasVoterContext : Bool
  isCandidateRemoved : Bool
deriving DecidableEq, Repr

/-- The LeaderElection state (leader_election.h / leader_election.cc lines
1192-1215): the shell request, the write-once result, whether the decision
callback has run, the highest voter term seen, and the vote counter. -/
structure LeaderElectionState where
  request : VoteRequest
  result : Option ElectionResult
  hasResponded : Bool
  highestVoterTerm : Nat
  voteCounter : VoteCounter
deriving DecidableEq, Repr

/-- election_term() : the candidate term of the request. -/
def LeaderElectionState.electionTerm (les : LeaderElectionState) : Nat :=
  les.request.candidateTerm

/-- LeaderElection::RecordVoteUnlocked (leader_election.cc lines
1404-1444): build the VoteInfo from the response and register it,
ignoring registration errors and duplicate warnings. -/
def LeaderElectionState.recordVoteUnlocked (les : LeaderElectionState)
    (voterUuid : String) (resp : VoterResponse) (vote : ElectionVote) :
    LeaderElectionState :=
  { les with voteCounter :=
      (les.voteCounter.registerVote voterUuid
        ⟨vote, resp.hasVoterContext && resp.isCandidateRemoved⟩).1 }

/-- LeaderElection::HandleHigherTermUnlocked (leader_election.cc lines
1446-1469): when no result exists yet, cancel the election with a DENIED
result carrying the responder term. -/
def LeaderElectionState.handleHigherTermUnlocked (les : LeaderElectionState)
    (resp : VoterResponse) : LeaderElectionState :=
  if les.result = none then
    { les with result := some {
        voteRequest := les.request,
        decision := .denied,
        highestVoterTerm := resp.responderTerm,
        isCandidateRemoved := resp.hasVoterContext && resp.isCandidateRemoved } }
  else les

/-- LeaderElection::HandleVoteGrantedUnlocked (leader_election.cc lines
1471-1480). -/
def LeaderElectionState.handleVoteGrantedUnlocked (les : LeaderElectionState)
    (voterUuid : String) (resp : VoterResponse) : LeaderElectionState :=
  les.recordVoteUnlocked voterUuid resp .granted

/-- LeaderElection::HandleVoteDeniedUnlocked (leader_election.cc lines
1482-1495): a responder term above the election term cancels the election,
otherwise the denial is recorded. -/
def LeaderElectionState.handleVoteDeniedUnlocked (les : LeaderElectionState)
    (voterUuid : String) (resp : VoterResponse) : LeaderElectionState :=
  if les.electionTerm < resp.responderTerm then les.handleHigherTermUnlocked resp
  else les.recordVoteUnlocked voterUuid resp .denied

/-- LeaderElection::VoteResponseRpcCallback (leader_election.cc lines
1356-1402): RPC errors, tablet errors and responder-uuid mismatches count
as denials without touching highest_voter_term; valid responses update
highest_voter_term and dispatch on vote_granted. -/
def LeaderElectionState.voteResponseRpcCallback (les : LeaderElectionState)
    (voterUuid : String) (resp : VoterResponse) : LeaderElectionState :=
  if resp.rpcFailed then les.recordVoteUnlocked voterUuid resp .denied
  else if resp.hasError then les.recordVoteUnlocked voterUuid resp .denied
  else if voterUuid ≠ resp.responderUuid then les.recordVoteUnlocked voterUuid resp .denied
  else
    let les1 := { les with
      highestVoterTerm := max les.highestVoterTerm resp.responderTerm }
    if resp.voteGranted then les1.handleVoteGrantedUnlocked voterUuid resp
    else les1.handleVoteDeniedUnlocked voterUuid resp

/-- LeaderElection::CheckForDecision (leader_election.cc lines 1313-1354):
set the result from the counter when newly decided; deliver the result
exactly once. -/
def LeaderElectionState.checkForDecision (les : LeaderElectionState) :
    LeaderElectionState × Option ElectionResult :=
  let les1 :=
    if les.result = none ∧ les.voteCounter.isDecided then
      { les with result := some {
          voteRequest := les.request,
          decision :=
            match les.voteCounter.getDecision with
            | .ok d => d
            | .error _ => .denied,
          highestVoterTerm := les.highestVoterTerm,
          isCandidateRemoved :=
            match les.voteCounter.getDecision with
            | .ok .denied => les.voteCounter.isCandidateRemoved
            | _ => false } }
    else les
  if les1.result.isSome ∧ ¬les1.hasResponded then
    ({ les1 with hasResponded := true }, les1.result)
  else (les1, none)

/-- Processing one vote response end to end: the RPC callback followed by
the decision check performed outside the lock (leader_election.cc lines
1400-1402). -/
def LeaderElectionState.processVoteResponse (les : LeaderElectionState)
    (voterUuid : String) (resp : VoterResponse) :
    LeaderElectionState × Option ElectionResult :=
  (les.voteResponseRpcCallback voterUuid resp).checkForDecision

/-- C7: A valid denied vote response whose responder term is above the
election term, arriving while the election has no result yet, concludes
the election by delivering a DENIED ElectionResult whose
highest_voter_term is that responder term; and the consensus layer, still
below that term, advances its current term to exactly that value when the
result is delivered. -/
theorem c7_higher_term_cancels_election (les : LeaderElectionState)
    (voterUuid : String) (resp : VoterResponse)
    (hres : les.result = none) (hnoresp : les.hasResponded = false)
    (hrpc : resp.rpcFailed = false) (herr : resp.hasError = false)
    (huuid : resp.responderUuid = voterUuid) (hgr : resp.voteGranted = false)
    (hterm : les.electionTerm < resp.responderTerm) :
    (les.processVoteResponse voterUuid resp).2 = some
      { voteRequest := les.request
        decision := .denied
        highestVoterTerm := resp.responderTerm
        isCandidateRemoved := resp.hasVoterContext && resp.isCandidateRemoved } ∧
    (∀ st : ReplicaState, st.lifecycle = .kRunning →
      st.currentTerm < resp.responderTerm →
      (st.doElectionCallback
        { voteRequest := les.request
          decision := .denied
          highestVoterTerm := resp.responderTerm
          isCandidateRemoved := resp.hasVoterContext && resp.isCandidateRemoved
          }).1.currentTerm = resp.responderTerm) := by
  constructor
  · unfold LeaderElectionState.processVoteResponse LeaderElectionState.voteResponseRpcCallback
      LeaderElectionState.handleVoteDeniedUnlocked LeaderElectionState.handleHigherTermUnlocked
      LeaderElectionState.recordVoteUnlocked LeaderElectionState.checkForDecision
      LeaderElectionState.electionTerm
    have hterm2 : les.request.candidateTerm < resp.responderTerm := hterm
    simp [hrpc, herr, huuid, hgr, hres, hnoresp, hterm2]
  · intro st hrun hlt
    unfold ReplicaState.doElectionCallback
    rw [if_neg (by rw [hrun]; simp), if_pos (by rfl)]
    rw [if_pos hlt]
    exact ((handleTermAdvance_spec st resp.responderTerm .flushToDisk).2 hlt).2.1

/-- Closed witness for c7_higher_term_cancels_election: an election for
term 5 receives a denial from voter C at term 7 before any result. -/
theorem c7_higher_term_cancels_election_witness :
    (let les : LeaderElectionState :=
      { request := ⟨"B", 5, false, false, ⟨4, 9⟩⟩, result := none, hasResponded := false,
        highestVoterTerm := 5, voteCounter := (VoteCounter.init 3 2) }
     let resp : VoterResponse :=
      { rpcFailed := false, hasError := false, responderUuid := "C", responderTerm := 7,
        voteGranted := false, hasVoterContext := false, isCandidateRemoved := false }
     (les.processVoteResponse "C" resp).2 = some
       { voteRequest := les.request, decision := .denied, highestVoterTerm := 7,
         isCandidateRemoved := false } ∧
     (∀ st : ReplicaState, st.lifecycle = .kRunning → st.currentTerm < 7 →
       (st.doElectionCallback
         { voteRequest := les.request, decision := .denied, highestVoterTerm := 7,
           isCandidateRemoved := false }).1.currentTerm = 7)) :=
  c7_higher_term_cancels_election
    { request := ⟨"B", 5, false, false, ⟨4, 9⟩⟩, result := none, hasResponded := false,
      highestVoterTerm := 5, voteCounter := (VoteCounter.init 3 2) }
    "C"
    { rpcFailed := false, hasError := false, responderUuid := "C", responderTerm := 7,
      voteGranted := false, hasVoterContext := false, isCandidateRemoved := false }
    rfl rfl rfl rfl rfl rfl (by decide)

/-! ## Follower update path : deduplication and early commit
(raft_consensus.cc lines 1408-1470 and 1789-1807) -/

/-- PendingRounds state.  pending_rounds.cc is not under src/; the
committed index and the index-ordered pending set follow the spec
(PendingRounds holds appended-but-uncommitted rounds, keys
last_committed+1 .. last_appended). -/
structure PendingRounds where
  lastCommittedIndex : Nat
  pendingIds : List OpId
deriving DecidableEq, Repr

/-- Modelled from the spec: PendingRounds::GetLastPendingTransactionOpId is
the OpId of the last admitted pending round, MinimumOpId when none is
pending (the pending set is the contiguous index suffix of the log). -/
def PendingRounds.getLastPendingTransactionOpId (p : PendingRounds) : OpId :=
  p.pendingIds.getLast?.getD minimumOpId

/-- Modelled from the spec: PendingRounds::GetPendingOpByIndexOrNull looks
the pending round up by index. -/
def PendingRounds.getPendingOpByIndexOrNull (p : PendingRounds) (index : Nat) :
    Option OpId :=
  p.pendingIds.find? (fun id => id.index == index)

/-- Modelled from the spec: PendingRounds::AdvanceCommittedIndex is
idempotent and monotone; every pending round at index ≤ the target is
completed and removed. -/
def PendingRounds.advanceCommittedIndex (p : PendingRounds) (index : Nat) :
    PendingRounds :=
  { lastCommittedIndex := max p.lastCommittedIndex index
    pendingIds := p.pendingIds.filter (fun id => index < id.index) }

/-- ConsensusRequestPB : the fields of a leader update used on the
modelled paths (operations are represented by their OpIds). -/
structure ConsensusRequest where
  callerUuid : String
  callerTerm : Nat
  precedingId : OpId
  ops : List OpId
  committedIndex : Nat
  allReplicatedIndex : Nat
  regionDurableIndex : Nat
deriving DecidableEq, Repr

/-- The deduplication loop of
RaftConsensus::DeduplicateLeaderRequestUnlocked (raft_consensus.cc lines
1424-1461): ops at or below the committed index are dropped and advance the
preceding id; ops within the log that match a pending round exactly are
dropped likewise; an op whose index is in the log but whose id differs
resets the dedup point and is kept, as is everything beyond the log.  The
DCHECK case of a missing pending round (unreachable under the pending-set
invariant) keeps the op. -/
def dedupLoop (pending : PendingRounds) :
    List OpId → OpId → Nat → List OpId → OpId × List OpId
  | [], precedingOpid, _, kept => (precedingOpid, kept.reverse)
  | op :: rest, precedingOpid, dedupUpToIndex, kept =>
    if op.index ≤ pending.lastCommittedIndex then
      dedupLoop pending rest op dedupUpToIndex kept
    else if op.index ≤ dedupUpToIndex then
      match pending.getPendingOpByIndexOrNull op.index with
      | some round =>
        if round = op then dedupLoop pending rest op dedupUpToIndex kept
        else dedupLoop pending rest precedingOpid op.index (op :: kept)
      | none => dedupLoop pending rest precedingOpid op.index (op :: kept)
    else dedupLoop pending rest precedingOpid dedupUpToIndex (op :: kept)

/-- RaftConsensus::DeduplicateLeaderRequestUnlocked (raft_consensus.cc
lines 1408-1470): returns the deduplicated preceding OpId and messages. -/
def deduplicateLeaderRequestUnlocked (pending : PendingRounds)
    (lastOpIdInLogIndex : Nat) (req : ConsensusRequest) : OpId × List OpId :=
  dedupLoop pending req.ops req.precedingId lastOpIdInLogIndex []

/-- The outcome of the early-commit step of UpdateReplica. -/
structure UpdateReplicaEarlyCommit where
  dedupPrecedingOpid : OpId
  dedupMessages : List OpId
  earlyApplyUpTo : Nat
  pendingAfter : PendingRounds
deriving DecidableEq, Repr

/-- The accepted-update prefix of RaftConsensus::UpdateReplica up to and
including step 1 (raft_consensus.cc lines 1737-1807): deduplicate the
request, then, before any new operation is prepared or appended, advance
the committed index to the minimum of the last pending index, the
deduplicated preceding index and the leader committed index. -/
def updateReplicaEarlyCommitStep (pending : PendingRounds) (lastOpIdInLog : OpId)
    (req : ConsensusRequest) : UpdateReplicaEarlyCommit :=
  let deduped := deduplicateLeaderRequestUnlocked pending lastOpIdInLog.index req
  let earlyApplyUpTo :=
    min (min pending.getLastPendingTransactionOpId.index deduped.1.index)
      req.committedIndex
  { dedupPrecedingOpid := deduped.1
    dedupMessages := deduped.2
    earlyApplyUpTo := earlyApplyUpTo
    pendingAfter := pending.advanceCommittedIndex earlyApplyUpTo }

/-- C4: Early commit on the accepted follower update path: before any new
operation is enqueued the follower advances its committed index by exactly
min(last_pending.index, preceding_op_dedup.index, caller.committed_index);
in particular the early-commit point never exceeds the deduplicated
preceding index nor the leader committed index, and the committed index
advances monotonically to that point on the pre-append pending set. -/
theorem c4_early_commit_minimum (pending : PendingRounds) (lastOpIdInLog : OpId)
    (req : ConsensusRequest) :
    (updateReplicaEarlyCommitStep pending lastOpIdInLog req).earlyApplyUpTo =
      min (min pending.getLastPendingTransactionOpId.index
            (updateReplicaEarlyCommitStep pending lastOpIdInLog
              req).dedupPrecedingOpid.index)
        req.committedIndex ∧
    (updateReplicaEarlyCommitStep pending lastOpIdInLog req).earlyApplyUpTo ≤
      (updateReplicaEarlyCommitStep pending lastOpIdInLog req).dedupPrecedingOpid.index ∧
    (updateReplicaEarlyCommitStep pending lastOpIdInLog req).earlyApplyUpTo ≤
      req.committedIndex ∧
    (updateReplicaEarlyCommitStep pending lastOpIdInLog req).pendingAfter =
      pending.advanceCommittedIndex
        (updateReplicaEarlyCommitStep pending lastOpIdInLog req).earlyApplyUpTo ∧
    (updateReplicaEarlyCommitStep pending lastOpIdInLog
      req).pendingAfter.lastCommittedIndex =
      max pending.lastCommittedIndex
        (updateReplicaEarlyCommitStep pending lastOpIdInLog req).earlyApplyUpTo := by
  refine ⟨rfl, ?_, ?_, rfl, rfl⟩
  · unfold updateReplicaEarlyCommitStep
    dsimp only
    omega
  · unfold updateReplicaEarlyCommitStep
    dsimp only
    omega

/-! ## Configuration changes (raft_consensus.cc lines 2226-2573, 3116-3147,
1038-1113, 3824-3858) -/

/-- ChangeConfigType from consensus.pb; values other than the three known
ones fall into the defaulted switch arm. -/
inductive ChangeConfigType where
  | addPeer
  | removePeer
  | modifyPeer
  | unknownChangeType
deriving DecidableEq, Repr

/-- One entry of BulkChangeConfigRequestPB::config_changes. -/
structure ConfigChangeItem where
  type : Option ChangeConfigType
  peer : Option RaftPeer
deriving DecidableEq, Repr

/-- BulkChangeConfigRequestPB : the fields used on the modelled paths. -/
structure BulkChangeConfigRequest where
  casConfigOpidIndex : Option Int
  configChanges : List ConfigChangeItem
deriving DecidableEq, Repr

/-- IsRaftConfigMember (quorum_util.h line 48, .cc not under src/):
membership by uuid. -/
def isRaftConfigMember (uuid : String) (config : RaftConfig) : Bool :=
  (findPeer config uuid).isSome

/-- IsRaftConfigVoter (quorum_util.h line 49, .cc not under src/):
membership with VOTER type. -/
def isRaftConfigVoter (uuid : String) (config : RaftConfig) : Bool :=
  isVoterInConfig config uuid

/-- RemoveFromRaftConfig (quorum_util.h lines 74-77, .cc not under src/):
none when the uuid is not in the config, otherwise the config without that
peer. -/
def removeFromRaftConfig (config : RaftConfig) (uuid : String) : Option RaftConfig :=
  if isRaftConfigMember uuid config then
    some { config with peers := config.peers.filter (fun p => !(p.permanentUuid == some uuid)) }
  else none

/-- GetQuorumId (quorum_util.h lines 184-185, .cc not under src/): the
quorum_id attribute when quorum ids are in use, else the region. -/
def getQuorumId (peer : RaftPeer) (useQuorumId : Bool) : String :=
  if useQuorumId then peer.quorumId.getD "" else peer.region.getD ""

/-- IsUseQuorumId over an optional commit rule (quorum_util.h line 179). -/
def useQuorumIdOf (commitRule : Option CommitRule) : Bool :=
  match commitRule with
  | some rule => rule.useQuorumId
  | none => false

/-- PeerHasValidQuorumId (quorum_util.h line 188, .cc not under src/). -/
def peerHasValidQuorumId (peer : RaftPeer) : Bool :=
  !(peer.quorumId.getD "" == "")

/-- Modelled from the spec: GetActualVoterCountsFromConfig (quorum_util.h
lines 153-159, .cc not under src/) counts the voters of the config per
quorum id; this is its lookup at one quorum id, optionally restricted to
backed-by-db voters. -/
def actualVoterCountForQuorum (config : RaftConfig) (useQuorumId : Bool)
    (backedByDbOnly : Bool) (quorumId : String) : Nat :=
  (config.peers.filter (fun p =>
    p.memberType == some MemberType.voter &&
    (!backedByDbOnly || p.backedByDb) &&
    getQuorumId p useQuorumId == quorumId)).length

/-- RaftConsensus::peer_quorum_id (raft_consensus.cc lines 3196-3203): the
quorum id of the local peer under the active commit rule, empty without a
commit rule. -/
def ReplicaState.peerQuorumId (st : ReplicaState) : String :=
  match st.activeConfig.commitRule with
  | some rule => if rule.useQuorumId then st.selfQuorumId else st.selfRegion
  | none => ""

/-- The per-change loop of
RaftConsensus::CheckBulkConfigChangeAndGetNewConfigUnlocked
(raft_consensus.cc lines 2348-2553), threading the new config under
construction, the number of voters modified, and the set of peers already
modified.  Voter-distribution lookups of the flexi-raft branches use the
committed voter distribution (GetVoterDistributionForQuorumId, modelled
from the spec voter-distribution map). -/
def applyConfigChanges (flags : RaftFlags) (st : ReplicaState) :
    List ConfigChangeItem → RaftConfig → Nat → List String →
    RaftConfig × Nat × Option Err
  | [], newConfig, numVotersModified, _ => (newConfig, numVotersModified, none)
  | item :: rest, newConfig, numVotersModified, peersModified =>
    match item.type with
    | none => (newConfig, numVotersModified,
        some (.invalidArgument "Must specify type argument"))
    | some changeType =>
      match item.peer with
      | none => (newConfig, numVotersModified,
          some (.invalidArgument "Must specify peer argument"))
      | some peer =>
        match peer.permanentUuid with
        | none => (newConfig, numVotersModified,
            some (.invalidArgument "peer must have permanent_uuid specified"))
        | some serverUuid =>
          if peersModified.contains serverUuid then
            (newConfig, numVotersModified,
             some (.invalidArgument "only one change allowed per peer"))
          else
            match changeType with
            | .addPeer =>
              if isRaftConfigMember serverUuid st.committedConfig then
                (newConfig, numVotersModified,
                 some (.invalidArgument "Server is already a member of the config"))
              else if peer.memberType.isNone then
                (newConfig, numVotersModified,
                 some (.invalidArgument "peer must have member_type specified"))
              else if !peer.hasLastKnownAddr then
                (newConfig, numVotersModified,
                 some (.invalidArgument "peer must have last_known_addr specified"))
              else if peer.memberType = some MemberType.voter ∧
                  (flags.enableFlexiRaft &&
                    useQuorumIdOf st.committedConfig.commitRule) = true ∧
                  peerHasValidQuorumId peer = false then
                (newConfig, numVotersModified,
                 some (.invalidArgument "Peer must have a non-empty quorum_id in QuorumId type quorum"))
              else if peer.memberType ≠ some MemberType.voter ∧
                  peerHasValidQuorumId peer = true then
                (newConfig, numVotersModified,
                 some (.invalidArgument "Non-voter must not have quorum_id"))
              else if (flags.enableFlexiRaft &&
                  useQuorumIdOf st.committedConfig.commitRule &&
                  !flags.allowMultipleBackedByDbPerQuorum) = true ∧
                  1 ≤ actualVoterCountForQuorum st.committedConfig true true
                        (getQuorumId peer true) then
                (newConfig, numVotersModified,
                 some (.alreadyPresent "Not allow multiple backed_by_db instance added to the same quorum"))
              else
                applyConfigChanges flags st rest
                  { newConfig with peers := newConfig.peers ++ [peer] }
                  (numVotersModified +
                    (if peer.memberType = some MemberType.voter then 1 else 0))
                  (serverUuid :: peersModified)
            | .removePeer =>
              if serverUuid = st.selfUuid then
                (newConfig, numVotersModified,
                 some (.invalidArgument "Cannot remove peer from the config because it is the leader"))
              else
                match removeFromRaftConfig newConfig serverUuid with
                | none => (newConfig, numVotersModified,
                    some (.notFound "Server not a member of the config"))
                | some newConfig1 =>
                  if isRaftConfigVoter serverUuid st.committedConfig then
                    if flags.enableFlexiRaft then
                      match findPeer st.committedConfig serverUuid with
                      | none =>
                        applyConfigChanges flags st rest newConfig1
                          (numVotersModified + 1) (serverUuid :: peersModified)
                      | some removedPeer =>
                        let quorumId := getQuorumId removedPeer
                          (useQuorumIdOf st.activeConfig.commitRule)
                        let srdMode : Bool :=
                          match st.committedConfig.commitRule with
                          | some rule => rule.mode == QuorumMode.singleRegionDynamic
                          | none => false
                        if srdMode && !(quorumId == st.peerQuorumId) then
                          applyConfigChanges flags st rest newConfig1
                            (numVotersModified + 1) (serverUuid :: peersModified)
                        else
                          match st.committedConfig.voterDistribution.lookup quorumId with
                          | some expectedVoters =>
                            if actualVoterCountForQuorum st.committedConfig
                                (useQuorumIdOf st.committedConfig.commitRule) false
                                quorumId - 1 < majoritySize expectedVoters then
                              (newConfig1, numVotersModified + 1,
                               some (.invalidArgument "Cannot remove a voter in quorum: future voter count dips below expected voters"))
                            else
                              applyConfigChanges flags st rest newConfig1
                                (numVotersModified + 1) (serverUuid :: peersModified)
                          | none =>
                            applyConfigChanges flags st rest newConfig1
                              (numVotersModified + 1) (serverUuid :: peersModified)
                    else
                      applyConfigChanges flags st rest newConfig1
                        (numVotersModified + 1) (serverUuid :: peersModified)
                  else
                    applyConfigChanges flags st rest newConfig1
                      numVotersModified (serverUuid :: peersModified)
            | .modifyPeer =>
              match findPeer newConfig serverUuid with
              | none => (newConfig, numVotersModified,
                  some (.notFound "peer with the specified uuid not found in the config"))
              | some modifiedPeer =>
                let typeChanges := peer.memberType.isSome ∧
                  peer.memberType ≠ modifiedPeer.memberType
                let numVotersModified1 :=
                  if typeChanges ∧ (modifiedPeer.memberType = some MemberType.voter ∨
                      peer.memberType = some MemberType.voter) then
                    numVotersModified + 1
                  else numVotersModified
                if typeChanges ∧ serverUuid = st.selfUuid then
                  (newConfig, numVotersModified1,
                   some (.invalidArgument "Cannot modify member type of peer because it is the leader"))
                else
                  let peer1 := if typeChanges then
                      { modifiedPeer with memberType := peer.memberType }
                    else modifiedPeer
                  let peer2 := if peer.attrsPromote.isSome then
                      { peer1 with attrsPromote := peer.attrsPromote }
                    else peer1
                  let peer3 := if peer.attrsReplace.isSome then
                      { peer2 with attrsReplace := peer.attrsReplace }
                    else peer2
                  if peer3 = modifiedPeer then
                    (newConfig, numVotersModified1,
                     some (.invalidArgument "must modify a field when calling MODIFY_PEER"))
                  else
                    applyConfigChanges flags st rest
                      { newConfig with peers := newConfig.peers.map (fun p =>
                          if p.permanentUuid == some serverUuid then peer3 else p) }
                      numVotersModified1 (serverUuid :: peersModified)
            | .unknownChangeType =>
              (newConfig, numVotersModified,
               some (.notSupported "unsupported type of configuration change"))

/-- RaftConsensus::CheckActiveLeaderUnlocked (raft_consensus.cc lines
3799-3822). -/
def ReplicaState.checkActiveLeaderUnlocked (st : ReplicaState) : Option Err :=
  if st.activeRole = .leader then
    (if st.leaderTransferInProgress then
      some (.serviceUnavailable "leader transfer in progress")
     else none)
  else some (.illegalState "Replica is not leader of this config")

/-- RaftConsensus::CheckBulkConfigChangeAndGetNewConfigUnlocked
(raft_consensus.cc lines 2304-2573): running, active leader, no pending
config, at least one op committed in the current term, the CAS opid check,
then the per-change loop, the no-op-change and bulk-voter-change checks,
and clearing the new config opid index.  Returns the out-parameter content
at the point of return together with the Status. -/
def ReplicaState.checkBulkConfigChangeAndGetNewConfigUnlocked (flags : RaftFlags)
    (st : ReplicaState) (req : BulkChangeConfigRequest) : RaftConfig × Option Err :=
  if st.lifecycle ≠ .kRunning then
    (defaultRaftConfig, some (.illegalState "RaftConsensus is not running"))
  else
    match st.checkActiveLeaderUnlocked with
    | some e => (defaultRaftConfig, some e)
    | none =>
      if st.pendingConfig.isSome then
        (defaultRaftConfig,
         some (.illegalState "RaftConfig change currently pending, only one is allowed at a time"))
      else if !st.committedIndexInCurrentTerm then
        (defaultRaftConfig,
         some (.illegalState "Leader has not yet committed an operation in its own term"))
      else if (match req.casConfigOpidIndex with
               | some cas => !(st.committedConfig.opidIndex.getD 0 == cas)
               | none => false) then
        (defaultRaftConfig,
         some (.illegalState "Request specified cas_config_opid_index but the committed config has a different opid_index"))
      else
        match applyConfigChanges flags st req.configChanges st.committedConfig 0 [] with
        | (newConfig, _, some e) => (newConfig, some e)
        | (newConfig, numVotersModified, none) =>
          if newConfig = st.committedConfig then
            (newConfig,
             some (.invalidArgument "requested configuration change does not actually modify the config"))
          else if 1 < numVotersModified then
            (newConfig,
             some (.invalidArgument "it is not safe to modify the VOTER status of more than one peer at a time"))
          else ({ newConfig with opidIndex := none }, none)

/-- Modelled from the spec: VerifyRaftConfig (quorum_util.h line 115, .cc
not under src/) is the structural validation a config must pass before it
can become pending; a config without peers, or with a peer lacking a
permanent uuid, is structurally invalid. -/
def verifyRaftConfig (config : RaftConfig) : Option Err :=
  if config.peers.isEmpty then
    some (.invalidArgument "Invalid config to set as pending: config must contain at least one peer")
  else if config.peers.any (fun p => p.permanentUuid.isNone) then
    some (.invalidArgument "Invalid config to set as pending: peer must have permanent_uuid")
  else none

/-- ReplicateConfigChangeUnlocked followed by AppendNewRoundToQueueUnlocked
and AddPendingOperationUnlocked for the CHANGE_CONFIG_OP round
(raft_consensus.cc lines 3127-3147, 1038-1064, 1066-1113): the round gets
the next queue OpId, the new config receives that opid index, and unless
this is a startup replay the config is verified and set pending. -/
def ReplicaState.replicateConfigChangeUnlocked (st : ReplicaState)
    (newConfig : RaftConfig) (nextOpId : OpId) : ReplicaState × Option Err :=
  let newConfig1 := { newConfig with opidIndex := some (nextOpId.index : Int) }
  if !newConfig1.unsafeConfigChange ∧ st.pendingConfig.isSome then
    (st, some (.illegalState "RaftConfig change currently pending, only one is allowed at a time"))
  else if st.committedConfig.opidIndex.getD 0 < (nextOpId.index : Int) then
    match verifyRaftConfig newConfig1 with
    | some e => (st, some e)
    | none => ({ st with pendingConfig := some newConfig1 }, none)
  else (st, none)

/-- The outcome of RaftConsensus::BulkChangeConfig: the state, the Status
returned by the config-change check, the config handed to replication, and
the final Status of the call. -/
structure BulkChangeConfigOutcome where
  state : ReplicaState
  checkStatus : Option Err
  replicatedNewConfig : Option RaftConfig
  status : Option Err
deriving DecidableEq, Repr

/-- RaftConsensus::BulkChangeConfig (raft_consensus.cc lines 2258-2282).
The Status returned by CheckBulkConfigChangeAndGetNewConfigUnlocked at
line 2268 is not wrapped in RETURN_NOT_OK: it is discarded, and the call
proceeds to replicate whatever the out-parameter holds. -/
def ReplicaState.bulkChangeConfig (flags : RaftFlags) (st : ReplicaState)
    (req : BulkChangeConfigRequest) (nextOpId : OpId) : BulkChangeConfigOutcome :=
  let checked := st.checkBulkConfigChangeAndGetNewConfigUnlocked flags req
  match st.replicateConfigChangeUnlocked checked.1 nextOpId with
  | (st1, some e) =>
    { state := st1, checkStatus := checked.2, replicatedNewConfig := some checked.1,
      status := some e }
  | (st1, none) =>
    { state := st1, checkStatus := checked.2, replicatedNewConfig := some checked.1,
      status := none }

/-- A leader state that has not committed any operation in its current
term, with one ADD_PEER request: the failing input of C9. -/
def fixtureLeaderNoCommit : ReplicaState :=
  { fixtureLeaderA with committedIndexInCurrentTerm := false }

/-- The ADD_PEER request of the C9 failing input. -/
def fixtureAddPeerRequest : BulkChangeConfigRequest :=
  { casConfigOpidIndex := none,
    configChanges := [{ type := some .addPeer, peer := some (fixturePeer "D") }] }

/-- C9 (code bug): on a leader that has not committed an operation in its
current term, the config-change precondition check does reject the request
with IllegalState, but BulkChangeConfig drops that Status
(raft_consensus.cc line 2268 has no RETURN_NOT_OK) and proceeds to
replicate the default-constructed config instead of returning the
rejection: the call surfaces a validation error about the empty config
rather than the IllegalState rejection. -/
theorem c9_bulkChangeConfig_drops_precondition_status :
    (fixtureLeaderNoCommit.checkBulkConfigChangeAndGetNewConfigUnlocked
        ⟨false, -1, false⟩ fixtureAddPeerRequest).2 =
      some (.illegalState "Leader has not yet committed an operation in its own term") ∧
    (fixtureLeaderNoCommit.bulkChangeConfig ⟨false, -1, false⟩
        fixtureAddPeerRequest ⟨3, 8⟩).checkStatus =
      some (.illegalState "Leader has not yet committed an operation in its own term") ∧
    (fixtureLeaderNoCommit.bulkChangeConfig ⟨false, -1, false⟩
        fixtureAddPeerRequest ⟨3, 8⟩).replicatedNewConfig = some defaultRaftConfig ∧
    (fixtureLeaderNoCommit.bulkChangeConfig ⟨false, -1, false⟩
        fixtureAddPeerRequest ⟨3, 8⟩).status ≠
      some (.illegalState "Leader has not yet committed an operation in its own term") := by
  refine ⟨by decide, by decide, by decide, by decide⟩

end KuduRaft
